import Mathlib

/-!
Shallow embedding of the payment-to-ticket fulfillment pipeline of the
event-management backend: order creation (OrderService.createOrder),
webhook reconciliation (WebhookController), ticket issuance and
verification (TicketService), and the transaction ledger.

Conventions of the embedding:
* Mongo documents become Lean structures; collections become lists inside
  a single `DB` state record; document ids are strings.
* Monetary values (JS numbers) are modelled as rationals.
* Timestamps (`new Date()`, `Date.now()`) are modelled as a `Nat` tick
  passed explicitly to each handler.
* External collaborators (HMAC from node:crypto, the QR renderer from the
  qrcode package, the payment provider HTTP API, mail transport) are
  modelled as parameters or as injective stand-in encoders; outbound
  mails are recorded in the state so that their absence or presence can
  be stated.
* Fallible code returns `Except SvcError` together with the resulting
  state, so that partial effects before a throw stay observable.
-/

/-- Document id (Mongo ObjectId rendered as a string). -/
abbrev OId := String

/-- Order lifecycle status, from ORDER_STATUS in src/common/constant.ts. -/
inductive OrderStatus
  | pending
  | completed
  | expired
  | failed
  | cancelled
  | paidFailedTicketing
  | paidFailedEmail
deriving DecidableEq, Repr

/-- Transaction status, from TRANSACTION_STATUS in src/common/constant.ts. -/
inductive TransactionStatus
  | pending
  | successful
  | failed
  | cancelled
deriving DecidableEq, Repr

/-- A named ticket tier (models/interface.ts TicketType). -/
structure TicketType where
  name : String
  description : String
  price : Rat
deriving DecidableEq, Repr

/-- Event document: the fields the pipeline reads (models/interface.ts IEvent). -/
structure Event where
  id : OId
  user : OId
  title : String
  price : Option Rat
  ticketTypes : Option (List TicketType)
deriving DecidableEq, Repr

/-- User document: the fields the pipeline reads and the creator-balance
fields mutated by settlement (models/interface.ts IUser). -/
structure User where
  id : OId
  email : String
  firstName : String
  lastName : String
  flutterwaveCustomerId : Option String
  availableBalance : Rat
  totalEarnings : Rat
deriving DecidableEq, Repr

/-- Order document (models/interface.ts IOrder plus the fields the webhook
controller writes: paymentReference, paidAt, paymentMethod, failureReason,
failedAt). -/
structure Order where
  id : OId
  user : OId
  event : OId
  ticketType : Option TicketType
  numberOfTicket : Nat
  totalPrice : Rat
  purchaseDate : Nat
  status : OrderStatus
  paymentReference : Option String
  paymentMethod : Option String
  paidAt : Option Nat
  failureReason : Option String
  failedAt : Option Nat
deriving DecidableEq, Repr

/-- Inbound webhook payload `req.body.data` (the fields the controller
reads: status, tx_ref, reference, id, amount, currency, customer.email,
processor_response, gateway_response). -/
structure WebhookData where
  status : String
  txRef : Option String
  reference : Option String
  id : String
  amount : Rat
  currency : String
  customerEmail : Option String
  processorResponse : Option String
  gatewayResponse : Option String
deriving DecidableEq, Repr

/-- One entry of the transaction attempt log
(transactionSchema.logs in src/models/transaction.model.ts). -/
structure LogEntry where
  amount : Rat
  status : String
  receivedAt : Nat
  rawPayload : WebhookData
deriving DecidableEq, Repr

/-- Virtual-account snapshot stored on a transaction. -/
structure VirtualAccountInfo where
  accountNumber : String
  bankName : String
  expiryDate : Nat
deriving DecidableEq, Repr

/-- Transaction document (src/models/transaction.model.ts). The webhook
handler writes keys `metaData` and `failureReason` that the schema does
not declare (the schema declares `metadata` and no failure-reason field);
they are modelled as stored fields, which only strengthens what the
update can do. -/
structure Transaction where
  id : OId
  order : OId
  user : OId
  reference : String
  providerTransactionId : Option String
  amount : Rat
  currency : String
  paymentMethod : String
  status : TransactionStatus
  logs : List LogEntry
  metaData : Option WebhookData
  failureReason : Option String
  virtualAccount : Option VirtualAccountInfo
  initiatedAt : Option Nat
  completedAt : Option Nat
  failedAt : Option Nat
deriving DecidableEq, Repr

/-- Ticket document (models/interface.ts ITicket). `qrCode` stores the
rendered QR image data URL, exactly as persisted by
TicketService.createTicketAndSendMail (`qrCode: qrCodeDataURL`). -/
structure Ticket where
  id : OId
  user : OId
  event : OId
  order : OId
  ticketType : Option TicketType
  price : Rat
  seatNumber : Option String
  qrCode : String
  isUsed : Bool
  purchaseDate : Nat
deriving DecidableEq, Repr

/-- Admin notifications sent through MailService.sendAdminNotification,
keyed by template with the payload fields the claims talk about. -/
inductive AdminMail
  | webhookError (subject : String)
  | missingOrderAlert (reference : Option String) (transactionId : String)
      (amount : Rat) (currency : String)
  | paymentMismatchAlert (orderId : OId) (expectedAmount : Rat)
      (receivedAmount : Rat) (reference : String)
  | paymentSuccessNotification (orderId : OId) (amount : Rat)
      (currency : String) (ticketsCreated : Nat)
deriving DecidableEq, Repr

/-- Mails sent to end users (ticket mail, bulk ticket PDF mail, order
confirmation, payment-failed notice). -/
inductive UserMail
  | ticketEmail (rcpt : String) (firstTicketId : OId)
  | bulkTickets (rcpt : String) (ticketCount : Nat)
  | orderConfirmation (rcpt : String) (orderId : OId) (ticketCount : Nat)
      (totalAmount : Rat)
  | paymentFailed (rcpt : String) (orderId : OId) (amount : Rat)
      (failureReason : String)
deriving DecidableEq, Repr

/-- The persistent state: one list per collection, the outboxes of sent
mails, and counters used to mint fresh document ids. -/
structure DB where
  users : List User
  events : List Event
  orders : List Order
  transactions : List Transaction
  tickets : List Ticket
  adminMails : List AdminMail
  userMails : List UserMail
  orderSeq : Nat
  txnSeq : Nat
  ticketSeq : Nat
deriving DecidableEq, Repr

/-- Configuration consumed by the pipeline (src/config/env.config.ts).
`PLATFORM_FEE_PERCENTAGE` is stored in the environment as a string and
parsed with `parseFloat` at the use site; the parsed rational is modelled
directly. -/
structure Config where
  FLUTTERWAVE_SECRET_HASH : String
  PLATFORM_FEE_PERCENTAGE : Rat
deriving DecidableEq, Repr

/-- Error taxonomy of common/messages/error-response-message plus a
constructor for JS runtime TypeErrors surfaced by the code. -/
inductive SvcError
  | resourceNotFound (what : String)
  | resourceUsed (msg : String)
  | unauthorized (msg : String)
  | badRequest (msg : String)
  | unableToComplete (msg : String)
  | jsTypeError (msg : String)
deriving DecidableEq, Repr

/-- Modelled from the spec: the generic DBService (src/utils/db.utils.ts)
is absent from the sources; its `findById`, used by the services, is the
repository lookup by document id (spec section 9), modelled as the first
list element with the matching id. -/
def DB.findUser (db : DB) (i : OId) : Option User :=
  db.users.find? (fun u => u.id == i)

/-- Modelled from the spec: DBService `findById` over events, as for
`DB.findUser`. -/
def DB.findEvent (db : DB) (i : OId) : Option Event :=
  db.events.find? (fun e => e.id == i)

/-- Modelled from the spec: DBService `findById` over orders, as for
`DB.findUser`. -/
def DB.findOrder (db : DB) (i : OId) : Option Order :=
  db.orders.find? (fun o => o.id == i)

/-- Modelled from the spec: DBService `updateById` over orders — set the
supplied fields on the document with the matching id (ids are unique, so
at most one document is touched). -/
def DB.updateOrders (db : DB) (target : OId) (f : Order → Order) : DB :=
  { db with orders := db.orders.map (fun o => if o.id == target then f o else o) }

/-- Modelled from the spec: DBService `updateById` over users, as for
`DB.updateOrders`. -/
def DB.updateUsers (db : DB) (target : OId) (f : User → User) : DB :=
  { db with users := db.users.map (fun u => if u.id == target then f u else u) }

/-- Update-by-id over tickets (`ticket.save()` after mutating the
document in TicketService.verifyTicket, and the bulk update of
cancelTickets). -/
def DB.updateTickets (db : DB) (target : OId) (f : Ticket → Ticket) : DB :=
  { db with tickets := db.tickets.map (fun t => if t.id == target then f t else t) }

/-- Modelled from the spec: the generic persistence wrapper
(src/utils/db.utils.ts DBService) is absent from the sources; its
`update(filter, data)` used as update-by-filter is modelled as setting
exactly the fields of the supplied update document on the transaction(s)
matched by the filter, the standard object-document-mapper semantics its
generic call sites rely on. -/
def DB.updateTransactionsByRef (db : DB) (ref : String) (f : Transaction → Transaction) : DB :=
  { db with transactions :=
      db.transactions.map (fun t => if t.reference == ref then f t else t) }

/-- Record an admin notification in the outbox. -/
def DB.pushAdminMail (db : DB) (m : AdminMail) : DB :=
  { db with adminMails := m :: db.adminMails }

/-- Record a user mail in the outbox. -/
def DB.pushUserMail (db : DB) (m : UserMail) : DB :=
  { db with userMails := m :: db.userMails }

/-- Record a user mail only when the condition holds. -/
def DB.pushUserMailWhen (db : DB) (c : Prop) [Decidable c] (m : UserMail) : DB :=
  { db with userMails := if c then m :: db.userMails else db.userMails }

/-- Persist a batch of freshly created tickets, advancing the id counter. -/
def DB.insertTickets (db : DB) (ts : List Ticket) (n : Nat) : DB :=
  { db with tickets := db.tickets ++ ts, ticketSeq := db.ticketSeq + n }

/-- Persist a freshly created order, advancing the id counter. -/
def DB.insertOrder (db : DB) (o : Order) : DB :=
  { db with orders := db.orders ++ [o], orderSeq := db.orderSeq + 1 }

/-- Persist a freshly created transaction, advancing the id counter. -/
def DB.insertTransaction (db : DB) (t : Transaction) : DB :=
  { db with transactions := db.transactions ++ [t], txnSeq := db.txnSeq + 1 }

/-- JS `a || b` over two optional strings: `undefined` and the empty
string are falsy. -/
def jsOrStr : Option String → Option String → Option String
  | some s, b => if s = "" then b else some s
  | none, b => b

/-- JS `String.prototype.toLowerCase`, modelled per character. -/
def strLower (s : String) : String :=
  List.asString (s.data.map Char.toLower)

/-- Substring occurrence on character lists: some suffix of the haystack
starts with the pattern. -/
def subList (p : List Char) : List Char → Bool
  | [] => p.isPrefixOf []
  | c :: t => p.isPrefixOf (c :: t) || subList p t

/-- Mongo `$regex: pat` applied to a metacharacter-free pattern holds
exactly when the pattern occurs somewhere in the field (the regex is
unanchored); modelled as substring occurrence. -/
def strIncludes (pat hay : String) : Bool :=
  subList pat.data hay.data

/-- External renderer `QRCode.toDataURL` of the qrcode package: produces
a `data:` URL of a scannable image encoding the payload. Modelled as a
tagged injective encoding of the payload. -/
def qrToDataURL (payload : String) : String :=
  "data:image/png;base64," ++ payload

/-- PaymentService.isValidWebhook: recompute the HMAC-SHA256-base64
digest of the raw body under the shared secret and compare it with the
supplied header. The digest function itself is external crypto and is a
parameter `hmac` (secret → raw body → base64 digest); a missing header
never equals the digest string. -/
def PaymentService.isValidWebhook (hmac : String → String → String)
    (secretHash : String) (rawBody : String) (signature : Option String) : Bool :=
  match signature with
  | some s => hmac secretHash rawBody == s
  | none => false

/-- Row persisted by iteration `i` (0-based) of the creation loop in
TicketService.createTicketAndSendMail: per-seat payload `order-(i+1)`,
rendered to a data URL and stored in `qrCode`, `isUsed: false`. Ids are
minted from the ticket counter. -/
def mkTicketRow (user event order : OId) (ticketType : Option TicketType)
    (price : Rat) (purchaseDate : Nat) (seq : Nat) (i : Nat) : Ticket :=
  { id := "tkt-" ++ toString (seq + i)
    user := user
    event := event
    order := order
    ticketType := ticketType
    price := price
    seatNumber := none
    qrCode := qrToDataURL (order ++ "-" ++ toString (i + 1))
    isUsed := false
    purchaseDate := purchaseDate }

/-- TicketService.createTicketAndSendMail: load event and user snapshots
(NotFound before any ticket is written), create `count` tickets with
per-seat QR payloads, then send the ticket mail (plus a bulk-PDF mail
when `count > 1`). With `count = 0` the access `createdTickets[0]!` after
the loop raises a TypeError after zero tickets were written. -/
def TicketService.createTicketAndSendMail (db : DB) (user event order : OId)
    (ticketType : Option TicketType) (price : Rat) (purchaseDate : Nat)
    (count : Nat) : DB × Except SvcError (List Ticket) :=
  match db.findEvent event with
  | none => (db, .error (.resourceNotFound "Event not found"))
  | some _eventDetails =>
    match db.findUser user with
    | none => (db, .error (.resourceNotFound "User not found"))
    | some userDetails =>
      let createdTickets := (List.range count).map
        (mkTicketRow user event order ticketType price purchaseDate db.ticketSeq)
      let db1 := db.insertTickets createdTickets count
      if count = 0 then
        (db1, .error (.jsTypeError "createdTickets[0] is undefined"))
      else
        let db2 := db1.pushUserMail
          (.ticketEmail userDetails.email ("tkt-" ++ toString db.ticketSeq))
        let db3 := db2.pushUserMailWhen (count > 1)
          (.bulkTickets userDetails.email count)
        (db3, .ok createdTickets)

/-- Lookup predicate of TicketService.verifyTicket: the stored `qrCode`
field matches the supplied code as an unanchored regex, or the document
id equals the code. -/
def ticketMatches (ticketCode : String) (t : Ticket) : Bool :=
  strIncludes ticketCode t.qrCode || t.id == ticketCode

/-- Holder/event summary returned by a successful verification. -/
structure VerifySummary where
  ticketId : OId
  eventName : String
  holderName : String
  holderEmail : String
deriving DecidableEq, Repr

/-- TicketService.verifyTicket: find the ticket by code, fail NotFound if
absent, fail resourceUsed if already used, otherwise read the populated
event (a null populate raises before the flip), flip `isUsed` to true,
and build the holder/event summary (a null populated user raises after
the flip was saved). -/
def TicketService.verifyTicket (db : DB) (ticketCode : String) :
    DB × Except SvcError VerifySummary :=
  match db.tickets.find? (ticketMatches ticketCode) with
  | none => (db, .error (.resourceNotFound "Invalid Ticket: Ticket not found"))
  | some ticket =>
    if ticket.isUsed then
      (db, .error (.resourceUsed "Ticket already used"))
    else
      match db.findEvent ticket.event with
      | none => (db, .error (.jsTypeError "populated event is null"))
      | some ev =>
        let db1 := db.updateTickets ticket.id (fun t => { t with isUsed := true })
        match db1.findUser ticket.user with
        | none => (db1, .error (.jsTypeError "populated user is null"))
        | some u =>
          (db1, .ok { ticketId := ticket.id
                      eventName := ev.title
                      holderName := u.firstName ++ " " ++ u.lastName
                      holderEmail := u.email })

/-- Request payload of OrderService.createOrder: `{event, ticketType?,
numberOfTicket}` (numberOfTicket defaults to 1 by destructuring). -/
structure CreateOrderInput where
  event : Option OId
  ticketType : Option String
  numberOfTicket : Option Nat
deriving DecidableEq, Repr

/-- OrderService.createOrder: resolve the event (NotFound if absent),
resolve the named tier case-insensitively when a truthy tier name is
given (NotFound if no tier matches), price the order as tier price times
quantity, else flat event price times quantity when that price is truthy,
else fail unableToComplete; persist the pending order, then delegate to
PaymentService.generateOrderPayment, which (externally) mints a provider
customer on first use — caching its id on the user — and a virtual
account, and persists the pending transaction with reference equal to the
order id. The provider's replies are the parameters `customerId` and
`va`. -/
def OrderService.createOrder (db : DB) (user : User) (data : CreateOrderInput)
    (customerId : String) (va : VirtualAccountInfo) (now : Nat) :
    DB × Except SvcError (Order × Transaction) :=
  match data.event with
  | none => (db, .error (.resourceNotFound "Event"))
  | some eventId =>
    match db.findEvent eventId with
    | none => (db, .error (.resourceNotFound "Event"))
    | some event =>
      let numberOfTicket := data.numberOfTicket.getD 1
      let requested : Option String := match data.ticketType with
        | some s => if s = "" then none else some s
        | none => none
      let fullTicketType : Option TicketType := match requested with
        | some nm => (event.ticketTypes.getD []).find?
            (fun tt => strLower tt.name == strLower nm)
        | none => none
      if requested.isSome && fullTicketType.isNone then
        (db, .error (.resourceNotFound "Ticket type"))
      else
        let price? : Option Rat := match fullTicketType with
          | some tt => some (tt.price * numberOfTicket)
          | none => match event.price with
            | some p => if p = 0 then none else some (p * numberOfTicket)
            | none => none
        match price? with
        | none => (db, .error (.unableToComplete "Unable to get ticket price."))
        | some price =>
          let order : Order :=
            { id := "ord-" ++ toString db.orderSeq
              user := user.id
              event := eventId
              ticketType := fullTicketType
              numberOfTicket := numberOfTicket
              totalPrice := price
              purchaseDate := now
              status := .pending
              paymentReference := none
              paymentMethod := none
              paidAt := none
              failureReason := none
              failedAt := none }
          let db1 := db.insertOrder order
          let db2 := db1.updateUsers user.id (fun u =>
            if user.flutterwaveCustomerId.isNone then
              { u with flutterwaveCustomerId := some customerId }
            else u)
          let txn : Transaction :=
            { id := "txn-" ++ toString db2.txnSeq
              order := order.id
              user := user.id
              reference := order.id
              providerTransactionId := none
              amount := price
              currency := "NGN"
              paymentMethod := "bank_transfer"
              status := .pending
              logs := []
              metaData := none
              failureReason := none
              virtualAccount := some va
              initiatedAt := some now
              completedAt := none
              failedAt := none }
          let db3 := db2.insertTransaction txn
          (db3, .ok (order, txn))

/-- WebhookController.updateEventCreatorBalance: read the populated
event's owner, deduct the platform fee (`PLATFORM_FEE_PERCENTAGE / 100`)
from the paid amount, and atomically increment the owner's
availableBalance and totalEarnings by the remainder via `$inc`. The whole
body is wrapped in try/catch whose errors are only logged, so a null
populated event leaves the state unchanged. Modelled from the spec: the
shared BaseController (src/controllers/base/base-controller.ts) that
provides `this.userService` is absent from the sources; the user service
it provides is modelled by the update over the users collection. -/
def WebhookController.updateEventCreatorBalance (cfg : Config) (db : DB)
    (order : Order) (amount : Rat) : DB :=
  match db.findEvent order.event with
  | none => db
  | some event =>
    let platformFeePercentage := cfg.PLATFORM_FEE_PERCENTAGE / 100
    let platformFee := amount * platformFeePercentage
    let creatorEarnings := amount - platformFee
    db.updateUsers event.user (fun u =>
      { u with
        availableBalance := u.availableBalance + creatorEarnings
        totalEarnings := u.totalEarnings + creatorEarnings })

/-- WebhookController.handleSuccessfulPayment: locate the order by
`tx_ref || reference`; if absent, alert the admin and stop; if already
completed, stop (idempotent replay); if the paid amount differs from the
order total by more than 0.01, alert the admin with both amounts and
stop; otherwise mark the order completed, transition the transaction
matched by the reference (also overwriting its reference with the
provider transaction id and attaching the raw payload under `metaData`),
create the tickets (errors propagate), then best-effort update the
creator balance, send the buyer confirmation, and notify the admin. -/
def WebhookController.handleSuccessfulPayment (cfg : Config)
    (webhookData : WebhookData) (now : Nat) (db : DB) :
    DB × Except SvcError Unit :=
  let reference := jsOrStr webhookData.txRef webhookData.reference
  let transactionId := webhookData.id
  let amount := webhookData.amount
  match reference.bind db.findOrder with
  | none =>
    (db.pushAdminMail
        (.missingOrderAlert reference transactionId amount webhookData.currency),
      .ok ())
  | some order =>
    if order.status = .completed then
      (db, .ok ())
    else if |amount - order.totalPrice| > 1 / 100 then
      (db.pushAdminMail
          (.paymentMismatchAlert order.id order.totalPrice amount
            (reference.getD "")),
        .ok ())
    else
      let db1 := db.updateOrders order.id (fun o =>
        { o with
          status := .completed
          paymentReference := some transactionId
          paidAt := some now
          paymentMethod := some "flutterwave" })
      let db2 := db1.updateTransactionsByRef (reference.getD "") (fun t =>
        { t with
          status := .successful
          reference := transactionId
          completedAt := some now
          metaData := some webhookData })
      let price : Rat := match order.ticketType with
        | some tt => tt.price
        | none => ((db2.findEvent order.event).bind Event.price).getD 0
      match TicketService.createTicketAndSendMail db2 order.user order.event
          order.id order.ticketType price now order.numberOfTicket with
      | (db3, .error e) => (db3, .error e)
      | (db3, .ok ticketsCreated) =>
        let db4 := WebhookController.updateEventCreatorBalance cfg db3 order amount
        let db5 := match db4.findUser order.user with
          | some u => db4.pushUserMail
              (.orderConfirmation u.email order.id ticketsCreated.length
                order.totalPrice)
          | none => db4
        (db5.pushAdminMail
            (.paymentSuccessNotification order.id amount webhookData.currency
              ticketsCreated.length),
          .ok ())

/-- WebhookController.handleFailedPayment: locate the order by
`tx_ref || reference`; when present, mark it failed with the provider's
response text, transition the matching transaction to failed, and send
the buyer a payment-failed mail (a null populated user raises); a
missing order is tolerated silently. -/
def WebhookController.handleFailedPayment (webhookData : WebhookData)
    (now : Nat) (db : DB) : DB × Except SvcError Unit :=
  let reference := jsOrStr webhookData.txRef webhookData.reference
  let failureReason :=
    (jsOrStr webhookData.processorResponse webhookData.gatewayResponse).getD
      "Payment failed"
  match reference.bind db.findOrder with
  | none => (db, .ok ())
  | some order =>
    let db1 := db.updateOrders order.id (fun o =>
      { o with
        status := .failed
        failureReason := some failureReason
        failedAt := some now })
    let db2 := db1.updateTransactionsByRef (reference.getD "") (fun t =>
      { t with
        status := .failed
        failureReason := some failureReason
        failedAt := some now
        metaData := some webhookData })
    match db2.findUser order.user with
    | none => (db2, .error (.jsTypeError "populated user is null"))
    | some u =>
      (db2.pushUserMail
          (.paymentFailed u.email order.id order.totalPrice failureReason),
        .ok ())

/-- Inbound webhook request: the raw (unparsed) body bytes, the
`flutterwave-signature` header, and the parsed `body.data`. -/
structure WebhookRequest where
  rawBody : String
  flutterwaveSignature : Option String
  data : WebhookData
deriving Repr

/-- Outcome of the webhook endpoint as seen by the provider. -/
inductive WebhookResponse
  | status200
  | unauthorizedInvalidSignature
  | errorForwarded (e : SvcError)
deriving DecidableEq, Repr

/-- WebhookController.orderTransactionCompleted: verify the signature
first and reject with Unauthorized before anything else on failure; then
branch on the notification's status — successful/succeeded drives the
success handler, failed/cancelled drives the failure handler, anything
else is logged only; handler errors are caught, reported to the admin,
and forwarded. -/
def WebhookController.orderTransactionCompleted (cfg : Config)
    (hmac : String → String → String) (req : WebhookRequest) (now : Nat)
    (db : DB) : DB × WebhookResponse :=
  if PaymentService.isValidWebhook hmac cfg.FLUTTERWAVE_SECRET_HASH
      req.rawBody req.flutterwaveSignature then
    let webhookData := req.data
    if webhookData.status = "successful" ∨ webhookData.status = "succeeded" then
      match WebhookController.handleSuccessfulPayment cfg webhookData now db with
      | (db1, .ok _) => (db1, .status200)
      | (db1, .error e) =>
        (db1.pushAdminMail (.webhookError "Webhook Processing Error"),
          .errorForwarded e)
    else if webhookData.status = "failed" ∨ webhookData.status = "cancelled" then
      match WebhookController.handleFailedPayment webhookData now db with
      | (db1, .ok _) => (db1, .status200)
      | (db1, .error e) =>
        (db1.pushAdminMail (.webhookError "Webhook Processing Error"),
          .errorForwarded e)
    else
      (db, .status200)
  else
    (db, .unauthorizedInvalidSignature)

/-- Normalized reply of PaymentService.verifyTransaction (the provider's
envelope: a top-level status string and the charge data). -/
structure VerificationResult where
  status : String
  data : WebhookData
deriving DecidableEq, Repr

/-- Reply of the manual verification endpoint. -/
inductive VerifyPaymentResponse
  | badRequestMissingId
  | verifiedAndProcessed
  | verificationCompleted (status : String)
  | errorForwarded (e : SvcError)
deriving DecidableEq, Repr

/-- WebhookController.verifyPaymentStatus: require a transaction id or
reference, poll the provider (external; its normalized reply is the
parameter `verificationResult`), and only when the reply's top-level
status is the literal "success" feed its data through
handleSuccessfulPayment; any other polled status — including "failed"
and "cancelled" — is acknowledged without invoking any handler. -/
def WebhookController.verifyPaymentStatus (cfg : Config) (hasId : Bool)
    (verificationResult : VerificationResult) (now : Nat) (db : DB) :
    DB × VerifyPaymentResponse :=
  if hasId then
    if verificationResult.status = "success" then
      match WebhookController.handleSuccessfulPayment cfg
          verificationResult.data now db with
      | (db1, .ok _) => (db1, .verifiedAndProcessed)
      | (db1, .error e) => (db1, .errorForwarded e)
    else
      (db, .verificationCompleted verificationResult.status)
  else
    (db, .badRequestMissingId)

/-- Per-order body of WebhookController.checkPendingOrders (the
pending-order sweep): a polled status of "successful" drives the success
handler and "failed"/"cancelled" drives the failure handler; per-order
errors are caught and logged, isolating the rest of the sweep. -/
def WebhookController.checkPendingOrdersStep (cfg : Config)
    (verificationResult : VerificationResult) (now : Nat) (db : DB) : DB :=
  if verificationResult.status = "successful" then
    (WebhookController.handleSuccessfulPayment cfg verificationResult.data now db).1
  else if verificationResult.status = "failed" ∨
      verificationResult.status = "cancelled" then
    (WebhookController.handleFailedPayment verificationResult.data now db).1
  else
    db

/-- Decidable equality for `Except` results, used to state and check
concrete runs of the handlers. -/
instance {ε α : Type} [DecidableEq ε] [DecidableEq α] : DecidableEq (Except ε α) := fun a b =>
  match a, b with
  | .ok x, .ok y =>
    match decEq x y with
    | isTrue h => isTrue (by rw [h])
    | isFalse h => isFalse (by intro hh; cases hh; exact h rfl)
  | .ok _, .error _ => isFalse (by intro hh; cases hh)
  | .error _, .ok _ => isFalse (by intro hh; cases hh)
  | .error x, .error y =>
    match decEq x y with
    | isTrue h => isTrue (by rw [h])
    | isFalse h => isFalse (by intro hh; cases hh; exact h rfl)

/-- Sample buyer used to exercise the handlers on concrete inputs. -/
def wUser : User :=
  { id := "u1", email := "buyer@mail.test", firstName := "Ada", lastName := "Lau"
    flutterwaveCustomerId := some "fc1", availableBalance := 0, totalEarnings := 0 }

/-- Sample event owner. -/
def wOwner : User :=
  { id := "u2", email := "owner@mail.test", firstName := "Own", lastName := "Er"
    flutterwaveCustomerId := none, availableBalance := 5, totalEarnings := 7 }

/-- Sample event with a flat price and one named tier. -/
def wEvent : Event :=
  { id := "e1", user := "u2", title := "Gig", price := some 5000
    ticketTypes := some [{ name := "VIP", description := "front", price := 8000 }] }

/-- Sample pending order: 2 tickets at flat price 5000, total 10000. -/
def wOrder : Order :=
  { id := "o1", user := "u1", event := "e1", ticketType := none
    numberOfTicket := 2, totalPrice := 10000, purchaseDate := 1, status := .pending
    paymentReference := none, paymentMethod := none, paidAt := none
    failureReason := none, failedAt := none }

/-- Sample pending transaction whose reference is the order id. -/
def wTxn : Transaction :=
  { id := "tx1", order := "o1", user := "u1", reference := "o1"
    providerTransactionId := none, amount := 10000, currency := "NGN"
    paymentMethod := "bank_transfer", status := .pending, logs := []
    metaData := none, failureReason := none, virtualAccount := none
    initiatedAt := some 1, completedAt := none, failedAt := none }

/-- Sample state holding the buyer, the owner, the event, the pending
order and its pending transaction. -/
def wDb : DB :=
  { users := [wUser, wOwner], events := [wEvent], orders := [wOrder]
    transactions := [wTxn], tickets := [], adminMails := [], userMails := []
    orderSeq := 2, txnSeq := 2, ticketSeq := 0 }

/-- Sample successful-payment webhook payload matching `wOrder`. -/
def wW : WebhookData :=
  { status := "successful", txRef := some "o1", reference := none, id := "FLW123"
    amount := 10000, currency := "NGN", customerEmail := some "buyer@mail.test"
    processorResponse := none, gatewayResponse := none }

/-- Sample configuration: secret and a 2 percent platform fee. -/
def wCfg : Config :=
  { FLUTTERWAVE_SECRET_HASH := "shh", PLATFORM_FEE_PERCENTAGE := 2 }

/-- Concrete stand-in for the external HMAC-SHA256-base64 digest used to
instantiate signature-check statements. -/
def wHmac (secret rawBody : String) : String :=
  secret ++ "|" ++ rawBody

/-- Sample virtual-account instruction returned by the provider. -/
def wVa : VirtualAccountInfo :=
  { accountNumber := "0001", bankName := "TestBank", expiryDate := 99 }

/-- Free event used to refute the flat-price clause of C5 at price 0. -/
def cEvent5 : Event :=
  { id := "e5", user := "u2", title := "FreeGig", price := some 0, ticketTypes := none }

/-- State holding only the free event. -/
def cDb5 : DB :=
  { users := [wUser], events := [cEvent5], orders := [], transactions := []
    tickets := [], adminMails := [], userMails := [], orderSeq := 0, txnSeq := 0
    ticketSeq := 0 }



/-- Sample unused ticket as minted by the issuer for order o1, seat 1. -/
def wTicket : Ticket :=
  { id := "tkt-0", user := "u1", event := "e1", order := "o1", ticketType := none
    price := 5000, seatNumber := none, qrCode := qrToDataURL "o1-1"
    isUsed := false, purchaseDate := 9 }

/-- Sample state whose tickets collection holds exactly `wTicket`. -/
def wDbT : DB :=
  { wDb with tickets := [wTicket] }

/-- Failed-payment webhook payload for the order o1. -/
def cW8 : WebhookData :=
  { status := "failed", txRef := some "o1", reference := none, id := "FLW999"
    amount := 10000, currency := "NGN", customerEmail := some "buyer@mail.test"
    processorResponse := some "card declined", gatewayResponse := none }

/-- Correctly signed webhook request carrying the failed payload. -/
def cReq8 : WebhookRequest :=
  { rawBody := "raw8", flutterwaveSignature := some (wHmac "shh" "raw8")
    data := cW8 }

/-- Projection facts: each update-by-id touches only its own collection. -/
theorem DB.orders_updateUsers (db : DB) (t : OId) (f : User → User) :
    (db.updateUsers t f).orders = db.orders := rfl

theorem DB.events_updateUsers (db : DB) (t : OId) (f : User → User) :
    (db.updateUsers t f).events = db.events := rfl

theorem DB.tickets_updateUsers (db : DB) (t : OId) (f : User → User) :
    (db.updateUsers t f).tickets = db.tickets := rfl

theorem DB.transactions_updateUsers (db : DB) (t : OId) (f : User → User) :
    (db.updateUsers t f).transactions = db.transactions := rfl

theorem DB.users_updateOrders (db : DB) (t : OId) (f : Order → Order) :
    (db.updateOrders t f).users = db.users := rfl

theorem DB.events_updateOrders (db : DB) (t : OId) (f : Order → Order) :
    (db.updateOrders t f).events = db.events := rfl

theorem DB.tickets_updateOrders (db : DB) (t : OId) (f : Order → Order) :
    (db.updateOrders t f).tickets = db.tickets := rfl

theorem DB.transactions_updateOrders (db : DB) (t : OId) (f : Order → Order) :
    (db.updateOrders t f).transactions = db.transactions := rfl

theorem DB.users_updateTransactionsByRef (db : DB) (r : String)
    (f : Transaction → Transaction) :
    (db.updateTransactionsByRef r f).users = db.users := rfl

theorem DB.events_updateTransactionsByRef (db : DB) (r : String)
    (f : Transaction → Transaction) :
    (db.updateTransactionsByRef r f).events = db.events := rfl

theorem DB.orders_updateTransactionsByRef (db : DB) (r : String)
    (f : Transaction → Transaction) :
    (db.updateTransactionsByRef r f).orders = db.orders := rfl

theorem DB.tickets_updateTransactionsByRef (db : DB) (r : String)
    (f : Transaction → Transaction) :
    (db.updateTransactionsByRef r f).tickets = db.tickets := rfl

theorem DB.users_updateTickets (db : DB) (t : OId) (f : Ticket → Ticket) :
    (db.updateTickets t f).users = db.users := rfl

theorem DB.events_updateTickets (db : DB) (t : OId) (f : Ticket → Ticket) :
    (db.updateTickets t f).events = db.events := rfl

theorem DB.orders_updateTickets (db : DB) (t : OId) (f : Ticket → Ticket) :
    (db.updateTickets t f).orders = db.orders := rfl

theorem DB.adminMails_updateUsers (db : DB) (t : OId) (f : User → User) :
    (db.updateUsers t f).adminMails = db.adminMails := rfl

theorem DB.userMails_updateUsers (db : DB) (t : OId) (f : User → User) :
    (db.updateUsers t f).userMails = db.userMails := rfl

theorem DB.orderSeq_updateUsers (db : DB) (t : OId) (f : User → User) :
    (db.updateUsers t f).orderSeq = db.orderSeq := rfl

theorem DB.txnSeq_updateUsers (db : DB) (t : OId) (f : User → User) :
    (db.updateUsers t f).txnSeq = db.txnSeq := rfl

theorem DB.ticketSeq_updateUsers (db : DB) (t : OId) (f : User → User) :
    (db.updateUsers t f).ticketSeq = db.ticketSeq := rfl

theorem DB.adminMails_updateOrders (db : DB) (t : OId) (f : Order → Order) :
    (db.updateOrders t f).adminMails = db.adminMails := rfl

theorem DB.userMails_updateOrders (db : DB) (t : OId) (f : Order → Order) :
    (db.updateOrders t f).userMails = db.userMails := rfl

theorem DB.orderSeq_updateOrders (db : DB) (t : OId) (f : Order → Order) :
    (db.updateOrders t f).orderSeq = db.orderSeq := rfl

theorem DB.txnSeq_updateOrders (db : DB) (t : OId) (f : Order → Order) :
    (db.updateOrders t f).txnSeq = db.txnSeq := rfl

theorem DB.ticketSeq_updateOrders (db : DB) (t : OId) (f : Order → Order) :
    (db.updateOrders t f).ticketSeq = db.ticketSeq := rfl

theorem DB.adminMails_updateTransactionsByRef (db : DB) (r : String)
    (f : Transaction → Transaction) :
    (db.updateTransactionsByRef r f).adminMails = db.adminMails := rfl

theorem DB.userMails_updateTransactionsByRef (db : DB) (r : String)
    (f : Transaction → Transaction) :
    (db.updateTransactionsByRef r f).userMails = db.userMails := rfl

theorem DB.orderSeq_updateTransactionsByRef (db : DB) (r : String)
    (f : Transaction → Transaction) :
    (db.updateTransactionsByRef r f).orderSeq = db.orderSeq := rfl

theorem DB.txnSeq_updateTransactionsByRef (db : DB) (r : String)
    (f : Transaction → Transaction) :
    (db.updateTransactionsByRef r f).txnSeq = db.txnSeq := rfl

theorem DB.ticketSeq_updateTransactionsByRef (db : DB) (r : String)
    (f : Transaction → Transaction) :
    (db.updateTransactionsByRef r f).ticketSeq = db.ticketSeq := rfl

theorem DB.adminMails_updateTickets (db : DB) (t : OId) (f : Ticket → Ticket) :
    (db.updateTickets t f).adminMails = db.adminMails := rfl

theorem DB.userMails_updateTickets (db : DB) (t : OId) (f : Ticket → Ticket) :
    (db.updateTickets t f).userMails = db.userMails := rfl

theorem DB.transactions_updateTickets (db : DB) (t : OId) (f : Ticket → Ticket) :
    (db.updateTickets t f).transactions = db.transactions := rfl

theorem DB.ticketSeq_updateTickets (db : DB) (t : OId) (f : Ticket → Ticket) :
    (db.updateTickets t f).ticketSeq = db.ticketSeq := rfl

attribute [simp] DB.adminMails_updateUsers DB.userMails_updateUsers
  DB.orderSeq_updateUsers DB.txnSeq_updateUsers DB.ticketSeq_updateUsers
  DB.adminMails_updateOrders DB.userMails_updateOrders
  DB.orderSeq_updateOrders DB.txnSeq_updateOrders DB.ticketSeq_updateOrders
  DB.adminMails_updateTransactionsByRef DB.userMails_updateTransactionsByRef
  DB.orderSeq_updateTransactionsByRef DB.txnSeq_updateTransactionsByRef
  DB.ticketSeq_updateTransactionsByRef DB.adminMails_updateTickets
  DB.userMails_updateTickets DB.transactions_updateTickets
  DB.ticketSeq_updateTickets

attribute [simp] DB.orders_updateUsers DB.events_updateUsers
  DB.tickets_updateUsers DB.transactions_updateUsers DB.users_updateOrders
  DB.events_updateOrders DB.tickets_updateOrders DB.transactions_updateOrders
  DB.users_updateTransactionsByRef DB.events_updateTransactionsByRef
  DB.orders_updateTransactionsByRef DB.tickets_updateTransactionsByRef
  DB.users_updateTickets DB.events_updateTickets DB.orders_updateTickets


/-- Lookups in one collection are unaffected by updates to another. -/
theorem DB.findUser_updateOrders (db : DB) (t : OId) (f : Order → Order) (i : OId) :
    (db.updateOrders t f).findUser i = db.findUser i := rfl

theorem DB.findUser_updateTransactionsByRef (db : DB) (r : String)
    (f : Transaction → Transaction) (i : OId) :
    (db.updateTransactionsByRef r f).findUser i = db.findUser i := rfl

theorem DB.findUser_updateTickets (db : DB) (t : OId) (f : Ticket → Ticket) (i : OId) :
    (db.updateTickets t f).findUser i = db.findUser i := rfl

theorem DB.findEvent_updateOrders (db : DB) (t : OId) (f : Order → Order) (i : OId) :
    (db.updateOrders t f).findEvent i = db.findEvent i := rfl

theorem DB.findEvent_updateUsers (db : DB) (t : OId) (f : User → User) (i : OId) :
    (db.updateUsers t f).findEvent i = db.findEvent i := rfl

theorem DB.findEvent_updateTransactionsByRef (db : DB) (r : String)
    (f : Transaction → Transaction) (i : OId) :
    (db.updateTransactionsByRef r f).findEvent i = db.findEvent i := rfl

theorem DB.findEvent_updateTickets (db : DB) (t : OId) (f : Ticket → Ticket) (i : OId) :
    (db.updateTickets t f).findEvent i = db.findEvent i := rfl

theorem DB.findOrder_updateUsers (db : DB) (t : OId) (f : User → User) (i : OId) :
    (db.updateUsers t f).findOrder i = db.findOrder i := rfl

theorem DB.findOrder_updateTransactionsByRef (db : DB) (r : String)
    (f : Transaction → Transaction) (i : OId) :
    (db.updateTransactionsByRef r f).findOrder i = db.findOrder i := rfl

theorem DB.findOrder_updateTickets (db : DB) (t : OId) (f : Ticket → Ticket) (i : OId) :
    (db.updateTickets t f).findOrder i = db.findOrder i := rfl

attribute [simp] DB.findUser_updateOrders DB.findUser_updateTransactionsByRef
  DB.findUser_updateTickets DB.findEvent_updateOrders DB.findEvent_updateUsers
  DB.findEvent_updateTransactionsByRef DB.findEvent_updateTickets
  DB.findOrder_updateUsers DB.findOrder_updateTransactionsByRef
  DB.findOrder_updateTickets

/-- The changed collection of each update-by-id, as a pointwise map. -/
theorem DB.orders_updateOrders_eq (db : DB) (t : OId) (f : Order → Order) :
    (db.updateOrders t f).orders
      = db.orders.map (fun o => if o.id == t then f o else o) := rfl

theorem DB.users_updateUsers_eq (db : DB) (t : OId) (f : User → User) :
    (db.updateUsers t f).users
      = db.users.map (fun u => if u.id == t then f u else u) := rfl

theorem DB.transactions_updateTransactionsByRef_eq (db : DB) (r : String)
    (f : Transaction → Transaction) :
    (db.updateTransactionsByRef r f).transactions
      = db.transactions.map (fun t => if t.reference == r then f t else t) := rfl

theorem DB.tickets_updateTickets_eq (db : DB) (t : OId) (f : Ticket → Ticket) :
    (db.updateTickets t f).tickets
      = db.tickets.map (fun x => if x.id == t then f x else x) := rfl

attribute [simp] DB.orders_updateOrders_eq DB.users_updateUsers_eq
  DB.transactions_updateTransactionsByRef_eq DB.tickets_updateTickets_eq

/-- find? commutes with a map that does not disturb the predicate. -/
theorem find?_map_idPreserving {α : Type} (p : α → Bool) (g : α → α)
    (hg : ∀ x, p (g x) = p x) (l : List α) :
    (l.map g).find? p = (l.find? p).map g := by
  rw [List.find?_map]
  have hpg : p ∘ g = p := funext hg
  rw [hpg]

/-- Looking up any user after the settlement increment returns the
possibly-incremented record. -/
theorem DB.findUser_updateUsers_inc (db : DB) (t i : OId) (a : Rat) :
    (db.updateUsers t (fun u =>
      { u with availableBalance := u.availableBalance + a,
               totalEarnings := u.totalEarnings + a })).findUser i
      = (db.findUser i).map (fun u => if u.id == t then
          { u with availableBalance := u.availableBalance + a,
                   totalEarnings := u.totalEarnings + a }
        else u) := by
  simp only [DB.updateUsers, DB.findUser]
  refine find?_map_idPreserving _ _ ?_ db.users
  intro u
  by_cases h : u.id == t <;> simp [h]

/-- Projection and lookup facts for the outbox and insert operations. -/
theorem DB.users_pushAdminMail (db : DB) (m : AdminMail) :
    (db.pushAdminMail m).users = db.users := rfl

theorem DB.events_pushAdminMail (db : DB) (m : AdminMail) :
    (db.pushAdminMail m).events = db.events := rfl

theorem DB.orders_pushAdminMail (db : DB) (m : AdminMail) :
    (db.pushAdminMail m).orders = db.orders := rfl

theorem DB.transactions_pushAdminMail (db : DB) (m : AdminMail) :
    (db.pushAdminMail m).transactions = db.transactions := rfl

theorem DB.tickets_pushAdminMail (db : DB) (m : AdminMail) :
    (db.pushAdminMail m).tickets = db.tickets := rfl

theorem DB.adminMails_pushAdminMail (db : DB) (m : AdminMail) :
    (db.pushAdminMail m).adminMails = m :: db.adminMails := rfl

theorem DB.userMails_pushAdminMail (db : DB) (m : AdminMail) :
    (db.pushAdminMail m).userMails = db.userMails := rfl

theorem DB.orderSeq_pushAdminMail (db : DB) (m : AdminMail) :
    (db.pushAdminMail m).orderSeq = db.orderSeq := rfl

theorem DB.txnSeq_pushAdminMail (db : DB) (m : AdminMail) :
    (db.pushAdminMail m).txnSeq = db.txnSeq := rfl

theorem DB.ticketSeq_pushAdminMail (db : DB) (m : AdminMail) :
    (db.pushAdminMail m).ticketSeq = db.ticketSeq := rfl

theorem DB.findUser_pushAdminMail (db : DB) (m : AdminMail) (i : OId) :
    (db.pushAdminMail m).findUser i = db.findUser i := rfl

theorem DB.findEvent_pushAdminMail (db : DB) (m : AdminMail) (i : OId) :
    (db.pushAdminMail m).findEvent i = db.findEvent i := rfl

theorem DB.findOrder_pushAdminMail (db : DB) (m : AdminMail) (i : OId) :
    (db.pushAdminMail m).findOrder i = db.findOrder i := rfl

theorem DB.users_pushUserMail (db : DB) (m : UserMail) :
    (db.pushUserMail m).users = db.users := rfl

theorem DB.events_pushUserMail (db : DB) (m : UserMail) :
    (db.pushUserMail m).events = db.events := rfl

theorem DB.orders_pushUserMail (db : DB) (m : UserMail) :
    (db.pushUserMail m).orders = db.orders := rfl

theorem DB.transactions_pushUserMail (db : DB) (m : UserMail) :
    (db.pushUserMail m).transactions = db.transactions := rfl

theorem DB.tickets_pushUserMail (db : DB) (m : UserMail) :
    (db.pushUserMail m).tickets = db.tickets := rfl

theorem DB.adminMails_pushUserMail (db : DB) (m : UserMail) :
    (db.pushUserMail m).adminMails = db.adminMails := rfl

theorem DB.userMails_pushUserMail (db : DB) (m : UserMail) :
    (db.pushUserMail m).userMails = m :: db.userMails := rfl

theorem DB.orderSeq_pushUserMail (db : DB) (m : UserMail) :
    (db.pushUserMail m).orderSeq = db.orderSeq := rfl

theorem DB.txnSeq_pushUserMail (db : DB) (m : UserMail) :
    (db.pushUserMail m).txnSeq = db.txnSeq := rfl

theorem DB.ticketSeq_pushUserMail (db : DB) (m : UserMail) :
    (db.pushUserMail m).ticketSeq = db.ticketSeq := rfl

theorem DB.findUser_pushUserMail (db : DB) (m : UserMail) (i : OId) :
    (db.pushUserMail m).findUser i = db.findUser i := rfl

theorem DB.findEvent_pushUserMail (db : DB) (m : UserMail) (i : OId) :
    (db.pushUserMail m).findEvent i = db.findEvent i := rfl

theorem DB.findOrder_pushUserMail (db : DB) (m : UserMail) (i : OId) :
    (db.pushUserMail m).findOrder i = db.findOrder i := rfl

theorem DB.users_pushUserMailWhen (db : DB) (c : Prop) [Decidable c] (m : UserMail) :
    (db.pushUserMailWhen c m).users = db.users := rfl

theorem DB.events_pushUserMailWhen (db : DB) (c : Prop) [Decidable c] (m : UserMail) :
    (db.pushUserMailWhen c m).events = db.events := rfl

theorem DB.orders_pushUserMailWhen (db : DB) (c : Prop) [Decidable c] (m : UserMail) :
    (db.pushUserMailWhen c m).orders = db.orders := rfl

theorem DB.transactions_pushUserMailWhen (db : DB) (c : Prop) [Decidable c] (m : UserMail) :
    (db.pushUserMailWhen c m).transactions = db.transactions := rfl

theorem DB.tickets_pushUserMailWhen (db : DB) (c : Prop) [Decidable c] (m : UserMail) :
    (db.pushUserMailWhen c m).tickets = db.tickets := rfl

theorem DB.adminMails_pushUserMailWhen (db : DB) (c : Prop) [Decidable c] (m : UserMail) :
    (db.pushUserMailWhen c m).adminMails = db.adminMails := rfl

theorem DB.userMails_pushUserMailWhen (db : DB) (c : Prop) [Decidable c] (m : UserMail) :
    (db.pushUserMailWhen c m).userMails = if c then m :: db.userMails else db.userMails := rfl

theorem DB.orderSeq_pushUserMailWhen (db : DB) (c : Prop) [Decidable c] (m : UserMail) :
    (db.pushUserMailWhen c m).orderSeq = db.orderSeq := rfl

theorem DB.txnSeq_pushUserMailWhen (db : DB) (c : Prop) [Decidable c] (m : UserMail) :
    (db.pushUserMailWhen c m).txnSeq = db.txnSeq := rfl

theorem DB.ticketSeq_pushUserMailWhen (db : DB) (c : Prop) [Decidable c] (m : UserMail) :
    (db.pushUserMailWhen c m).ticketSeq = db.ticketSeq := rfl

theorem DB.findUser_pushUserMailWhen (db : DB) (c : Prop) [Decidable c] (m : UserMail) (i : OId) :
    (db.pushUserMailWhen c m).findUser i = db.findUser i := rfl

theorem DB.findEvent_pushUserMailWhen (db : DB) (c : Prop) [Decidable c] (m : UserMail) (i : OId) :
    (db.pushUserMailWhen c m).findEvent i = db.findEvent i := rfl

theorem DB.findOrder_pushUserMailWhen (db : DB) (c : Prop) [Decidable c] (m : UserMail) (i : OId) :
    (db.pushUserMailWhen c m).findOrder i = db.findOrder i := rfl

theorem DB.users_insertTickets (db : DB) (ts : List Ticket) (n : Nat) :
    (db.insertTickets ts n).users = db.users := rfl

theorem DB.events_insertTickets (db : DB) (ts : List Ticket) (n : Nat) :
    (db.insertTickets ts n).events = db.events := rfl

theorem DB.orders_insertTickets (db : DB) (ts : List Ticket) (n : Nat) :
    (db.insertTickets ts n).orders = db.orders := rfl

theorem DB.transactions_insertTickets (db : DB) (ts : List Ticket) (n : Nat) :
    (db.insertTickets ts n).transactions = db.transactions := rfl

theorem DB.tickets_insertTickets (db : DB) (ts : List Ticket) (n : Nat) :
    (db.insertTickets ts n).tickets = db.tickets ++ ts := rfl

theorem DB.adminMails_insertTickets (db : DB) (ts : List Ticket) (n : Nat) :
    (db.insertTickets ts n).adminMails = db.adminMails := rfl

theorem DB.userMails_insertTickets (db : DB) (ts : List Ticket) (n : Nat) :
    (db.insertTickets ts n).userMails = db.userMails := rfl

theorem DB.orderSeq_insertTickets (db : DB) (ts : List Ticket) (n : Nat) :
    (db.insertTickets ts n).orderSeq = db.orderSeq := rfl

theorem DB.txnSeq_insertTickets (db : DB) (ts : List Ticket) (n : Nat) :
    (db.insertTickets ts n).txnSeq = db.txnSeq := rfl

theorem DB.ticketSeq_insertTickets (db : DB) (ts : List Ticket) (n : Nat) :
    (db.insertTickets ts n).ticketSeq = db.ticketSeq + n := rfl

theorem DB.findUser_insertTickets (db : DB) (ts : List Ticket) (n : Nat) (i : OId) :
    (db.insertTickets ts n).findUser i = db.findUser i := rfl

theorem DB.findEvent_insertTickets (db : DB) (ts : List Ticket) (n : Nat) (i : OId) :
    (db.insertTickets ts n).findEvent i = db.findEvent i := rfl

theorem DB.findOrder_insertTickets (db : DB) (ts : List Ticket) (n : Nat) (i : OId) :
    (db.insertTickets ts n).findOrder i = db.findOrder i := rfl

theorem DB.users_insertOrder (db : DB) (o : Order) :
    (db.insertOrder o).users = db.users := rfl

theorem DB.events_insertOrder (db : DB) (o : Order) :
    (db.insertOrder o).events = db.events := rfl

theorem DB.orders_insertOrder (db : DB) (o : Order) :
    (db.insertOrder o).orders = db.orders ++ [o] := rfl

theorem DB.transactions_insertOrder (db : DB) (o : Order) :
    (db.insertOrder o).transactions = db.transactions := rfl

theorem DB.tickets_insertOrder (db : DB) (o : Order) :
    (db.insertOrder o).tickets = db.tickets := rfl

theorem DB.adminMails_insertOrder (db : DB) (o : Order) :
    (db.insertOrder o).adminMails = db.adminMails := rfl

theorem DB.userMails_insertOrder (db : DB) (o : Order) :
    (db.insertOrder o).userMails = db.userMails := rfl

theorem DB.orderSeq_insertOrder (db : DB) (o : Order) :
    (db.insertOrder o).orderSeq = db.orderSeq + 1 := rfl

theorem DB.txnSeq_insertOrder (db : DB) (o : Order) :
    (db.insertOrder o).txnSeq = db.txnSeq := rfl

theorem DB.ticketSeq_insertOrder (db : DB) (o : Order) :
    (db.insertOrder o).ticketSeq = db.ticketSeq := rfl

theorem DB.findUser_insertOrder (db : DB) (o : Order) (i : OId) :
    (db.insertOrder o).findUser i = db.findUser i := rfl

theorem DB.findEvent_insertOrder (db : DB) (o : Order) (i : OId) :
    (db.insertOrder o).findEvent i = db.findEvent i := rfl

theorem DB.users_insertTransaction (db : DB) (t : Transaction) :
    (db.insertTransaction t).users = db.users := rfl

theorem DB.events_insertTransaction (db : DB) (t : Transaction) :
    (db.insertTransaction t).events = db.events := rfl

theorem DB.orders_insertTransaction (db : DB) (t : Transaction) :
    (db.insertTransaction t).orders = db.orders := rfl

theorem DB.transactions_insertTransaction (db : DB) (t : Transaction) :
    (db.insertTransaction t).transactions = db.transactions ++ [t] := rfl

theorem DB.tickets_insertTransaction (db : DB) (t : Transaction) :
    (db.insertTransaction t).tickets = db.tickets := rfl

theorem DB.adminMails_insertTransaction (db : DB) (t : Transaction) :
    (db.insertTransaction t).adminMails = db.adminMails := rfl

theorem DB.userMails_insertTransaction (db : DB) (t : Transaction) :
    (db.insertTransaction t).userMails = db.userMails := rfl

theorem DB.orderSeq_insertTransaction (db : DB) (t : Transaction) :
    (db.insertTransaction t).orderSeq = db.orderSeq := rfl

theorem DB.txnSeq_insertTransaction (db : DB) (t : Transaction) :
    (db.insertTransaction t).txnSeq = db.txnSeq + 1 := rfl

theorem DB.ticketSeq_insertTransaction (db : DB) (t : Transaction) :
    (db.insertTransaction t).ticketSeq = db.ticketSeq := rfl

theorem DB.findUser_insertTransaction (db : DB) (t : Transaction) (i : OId) :
    (db.insertTransaction t).findUser i = db.findUser i := rfl

theorem DB.findEvent_insertTransaction (db : DB) (t : Transaction) (i : OId) :
    (db.insertTransaction t).findEvent i = db.findEvent i := rfl

theorem DB.findOrder_insertTransaction (db : DB) (t : Transaction) (i : OId) :
    (db.insertTransaction t).findOrder i = db.findOrder i := rfl

attribute [simp] DB.users_pushAdminMail DB.events_pushAdminMail DB.orders_pushAdminMail
  DB.transactions_pushAdminMail DB.tickets_pushAdminMail DB.adminMails_pushAdminMail
  DB.userMails_pushAdminMail DB.orderSeq_pushAdminMail DB.txnSeq_pushAdminMail
  DB.ticketSeq_pushAdminMail DB.findUser_pushAdminMail DB.findEvent_pushAdminMail
  DB.findOrder_pushAdminMail DB.users_pushUserMail DB.events_pushUserMail
  DB.orders_pushUserMail DB.transactions_pushUserMail DB.tickets_pushUserMail
  DB.adminMails_pushUserMail DB.userMails_pushUserMail DB.orderSeq_pushUserMail
  DB.txnSeq_pushUserMail DB.ticketSeq_pushUserMail DB.findUser_pushUserMail
  DB.findEvent_pushUserMail DB.findOrder_pushUserMail DB.users_pushUserMailWhen
  DB.events_pushUserMailWhen DB.orders_pushUserMailWhen DB.transactions_pushUserMailWhen
  DB.tickets_pushUserMailWhen DB.adminMails_pushUserMailWhen DB.userMails_pushUserMailWhen
  DB.orderSeq_pushUserMailWhen DB.txnSeq_pushUserMailWhen DB.ticketSeq_pushUserMailWhen
  DB.findUser_pushUserMailWhen DB.findEvent_pushUserMailWhen DB.findOrder_pushUserMailWhen
  DB.users_insertTickets DB.events_insertTickets DB.orders_insertTickets
  DB.transactions_insertTickets DB.tickets_insertTickets DB.adminMails_insertTickets
  DB.userMails_insertTickets DB.orderSeq_insertTickets DB.txnSeq_insertTickets
  DB.ticketSeq_insertTickets DB.findUser_insertTickets DB.findEvent_insertTickets
  DB.findOrder_insertTickets DB.users_insertOrder DB.events_insertOrder
  DB.orders_insertOrder DB.transactions_insertOrder DB.tickets_insertOrder
  DB.adminMails_insertOrder DB.userMails_insertOrder DB.orderSeq_insertOrder
  DB.txnSeq_insertOrder DB.ticketSeq_insertOrder DB.findUser_insertOrder
  DB.findEvent_insertOrder DB.users_insertTransaction DB.events_insertTransaction
  DB.orders_insertTransaction DB.transactions_insertTransaction DB.tickets_insertTransaction
  DB.adminMails_insertTransaction DB.userMails_insertTransaction DB.orderSeq_insertTransaction
  DB.txnSeq_insertTransaction DB.ticketSeq_insertTransaction DB.findUser_insertTransaction
  DB.findEvent_insertTransaction DB.findOrder_insertTransaction


/-- The empty pattern occurs in every haystack. -/
theorem subList_nil (l : List Char) : subList [] l = true := by
  cases l with
  | nil => rfl
  | cons c t => simp [subList, List.isPrefixOf]

/-- The empty string matches every field under the unanchored-regex model. -/
theorem strIncludes_empty (s : String) : strIncludes "" s = true :=
  subList_nil s.data

/-- A pattern that is a prefix of the haystack occurs in it. -/
theorem subList_of_isPrefixOf (p l : List Char) (h : p.isPrefixOf l = true) :
    subList p l = true := by
  cases l with
  | nil => simpa [subList] using h
  | cons c t => simp [subList, h]

/-- C3. A webhook request whose supplied signature header differs from
the HMAC-SHA256-base64 digest of the raw body under the shared secret is
rejected with Unauthorized, and the state is returned unchanged: no
order lookup result is used and no order, transaction, ticket, or
balance write occurs. -/
theorem claim_C3_signature_rejection (cfg : Config)
    (hmac : String → String → String) (req : WebhookRequest) (now : Nat)
    (db : DB) (s : String)
    (hsig : req.flutterwaveSignature = some s)
    (hne : hmac cfg.FLUTTERWAVE_SECRET_HASH req.rawBody ≠ s) :
    WebhookController.orderTransactionCompleted cfg hmac req now db
      = (db, .unauthorizedInvalidSignature) := by
  simp [WebhookController.orderTransactionCompleted,
    PaymentService.isValidWebhook, hsig, hne]

/-- Witness for C3: a concrete mis-signed request is rejected and the
concrete state is untouched. -/
theorem claim_C3_witness :
    ({ rawBody := "body", flutterwaveSignature := some "forged"
       data := wW } : WebhookRequest).flutterwaveSignature = some "forged" ∧
    wHmac wCfg.FLUTTERWAVE_SECRET_HASH "body" ≠ "forged" ∧
    WebhookController.orderTransactionCompleted wCfg wHmac
        { rawBody := "body", flutterwaveSignature := some "forged", data := wW }
        5 wDb
      = (wDb, .unauthorizedInvalidSignature) :=
  ⟨rfl, by decide,
    claim_C3_signature_rejection wCfg wHmac
      { rawBody := "body", flutterwaveSignature := some "forged", data := wW }
      5 wDb "forged" rfl (by decide)⟩

/-- C2. A successful-payment webhook whose reported amount differs from
the order's stored total by more than the fixed epsilon 0.01 never
completes the order, never issues a ticket, and never credits a balance:
the handler only prepends an admin alert carrying both amounts and
returns, leaving every collection unchanged. -/
theorem claim_C2_amount_mismatch (cfg : Config) (w : WebhookData) (now : Nat)
    (db : DB) (order : Order)
    (hfind : (jsOrStr w.txRef w.reference).bind db.findOrder = some order)
    (hncomp : ¬ order.status = OrderStatus.completed)
    (hmis : |w.amount - order.totalPrice| > 1 / 100) :
    WebhookController.handleSuccessfulPayment cfg w now db
      = ({ db with adminMails :=
            (AdminMail.paymentMismatchAlert order.id order.totalPrice w.amount
              ((jsOrStr w.txRef w.reference).getD "") :: db.adminMails) },
          .ok ()) := by
  simp only [WebhookController.handleSuccessfulPayment, hfind]
  rw [if_neg hncomp, if_pos hmis]
  rfl

/-- Witness for C2: a webhook reporting 9000 against a 10000 order only
records the mismatch alert with both amounts. -/
theorem claim_C2_witness :
    (jsOrStr ({ wW with amount := 9000 } : WebhookData).txRef
        ({ wW with amount := 9000 } : WebhookData).reference).bind wDb.findOrder
      = some wOrder ∧
    ¬ wOrder.status = OrderStatus.completed ∧
    |(9000 : Rat) - wOrder.totalPrice| > 1 / 100 ∧
    WebhookController.handleSuccessfulPayment wCfg { wW with amount := 9000 } 5 wDb
      = ({ wDb with adminMails :=
            [AdminMail.paymentMismatchAlert "o1" 10000 9000 "o1"] }, .ok ()) :=
  ⟨rfl, by decide, by norm_num [wOrder],
    by
      have h := claim_C2_amount_mismatch wCfg { wW with amount := 9000 } 5 wDb
        wOrder rfl (by decide) (by norm_num [wOrder])
      simpa [wDb, wOrder, wW, jsOrStr] using h⟩

/-- Counterexample to C5 as stated: for an event whose flat price is the
number 0 and quantity 1, createOrder does not persist an order with
totalPrice 0 times 1; the truthiness test `else if (event.price)` treats
the price 0 like a missing price, so the call fails unableToComplete and
creates nothing. -/
theorem claim_C5_counterexample :
    OrderService.createOrder cDb5 wUser
        { event := some "e5", ticketType := none, numberOfTicket := some 1 }
        "cid" wVa 0
      = (cDb5, .error (.unableToComplete "Unable to get ticket price.")) := by
  decide

/-- C5 (amended). For every event with a nonzero flat price p and every
quantity q, createOrder persists a pending order with totalPrice p times
q; for every tier resolved by a nonempty name matched case-insensitively,
totalPrice is the tier price times q; a nonempty tier name matching no
tier always fails NotFound with no order created; and if no tier was
requested and no truthy flat price exists it fails unableToComplete with
no order created. (Amended from the claim only in that JS truthiness
makes a flat price of 0 — and an empty requested tier name — behave as
absent.) -/
theorem claim_C5_create_order_pricing :
    (∀ (db : DB) (user : User) (data : CreateOrderInput) (cid : String)
        (va : VirtualAccountInfo) (now : Nat) (eventId : OId) (event : Event)
        (p : Rat),
      data.event = some eventId →
      db.findEvent eventId = some event →
      data.ticketType = none →
      event.price = some p →
      p ≠ 0 →
      ∃ o txn,
        (OrderService.createOrder db user data cid va now).2 = .ok (o, txn) ∧
        o.totalPrice = p * (data.numberOfTicket.getD 1 : ℚ) ∧
        o.status = .pending ∧
        (OrderService.createOrder db user data cid va now).1.orders
          = db.orders ++ [o]) ∧
    (∀ (db : DB) (user : User) (data : CreateOrderInput) (cid : String)
        (va : VirtualAccountInfo) (now : Nat) (eventId : OId) (event : Event)
        (nm : String) (tt : TicketType),
      data.event = some eventId →
      db.findEvent eventId = some event →
      data.ticketType = some nm →
      nm ≠ "" →
      (event.ticketTypes.getD []).find?
          (fun t => strLower t.name == strLower nm) = some tt →
      ∃ o txn,
        (OrderService.createOrder db user data cid va now).2 = .ok (o, txn) ∧
        o.totalPrice = tt.price * (data.numberOfTicket.getD 1 : ℚ) ∧
        o.status = .pending ∧
        (OrderService.createOrder db user data cid va now).1.orders
          = db.orders ++ [o]) ∧
    (∀ (db : DB) (user : User) (data : CreateOrderInput) (cid : String)
        (va : VirtualAccountInfo) (now : Nat) (eventId : OId) (event : Event)
        (nm : String),
      data.event = some eventId →
      db.findEvent eventId = some event →
      data.ticketType = some nm →
      nm ≠ "" →
      (event.ticketTypes.getD []).find?
          (fun t => strLower t.name == strLower nm) = none →
      OrderService.createOrder db user data cid va now
        = (db, .error (.resourceNotFound "Ticket type"))) ∧
    (∀ (db : DB) (user : User) (data : CreateOrderInput) (cid : String)
        (va : VirtualAccountInfo) (now : Nat) (eventId : OId) (event : Event),
      data.event = some eventId →
      db.findEvent eventId = some event →
      data.ticketType = none →
      event.price = none →
      OrderService.createOrder db user data cid va now
        = (db, .error (.unableToComplete "Unable to get ticket price."))) := by
  refine ⟨?_, ?_, ?_, ?_⟩
  · intro db user data cid va now eventId event p hev hfind htt hp hp0
    refine ⟨{ id := "ord-" ++ toString db.orderSeq, user := user.id,
              event := eventId, ticketType := none,
              numberOfTicket := data.numberOfTicket.getD 1,
              totalPrice := p * (data.numberOfTicket.getD 1 : ℚ),
              purchaseDate := now, status := .pending, paymentReference := none,
              paymentMethod := none, paidAt := none, failureReason := none,
              failedAt := none },
            { id := "txn-" ++ toString db.txnSeq,
              order := "ord-" ++ toString db.orderSeq, user := user.id,
              reference := "ord-" ++ toString db.orderSeq,
              providerTransactionId := none,
              amount := p * (data.numberOfTicket.getD 1 : ℚ), currency := "NGN",
              paymentMethod := "bank_transfer", status := .pending, logs := []
              metaData := none, failureReason := none, virtualAccount := some va
              initiatedAt := some now, completedAt := none, failedAt := none },
            ?_, ?_, ?_, ?_⟩ <;>
      simp [OrderService.createOrder, hev, hfind, htt, hp, hp0]
  · intro db user data cid va now eventId event nm tt hev hfind htt hnm hfull
    refine ⟨{ id := "ord-" ++ toString db.orderSeq, user := user.id,
              event := eventId, ticketType := some tt,
              numberOfTicket := data.numberOfTicket.getD 1,
              totalPrice := tt.price * (data.numberOfTicket.getD 1 : ℚ),
              purchaseDate := now, status := .pending, paymentReference := none,
              paymentMethod := none, paidAt := none, failureReason := none,
              failedAt := none },
            { id := "txn-" ++ toString db.txnSeq,
              order := "ord-" ++ toString db.orderSeq, user := user.id,
              reference := "ord-" ++ toString db.orderSeq,
              providerTransactionId := none,
              amount := tt.price * (data.numberOfTicket.getD 1 : ℚ),
              currency := "NGN", paymentMethod := "bank_transfer",
              status := .pending, logs := [], metaData := none,
              failureReason := none, virtualAccount := some va,
              initiatedAt := some now, completedAt := none, failedAt := none },
            ?_, ?_, ?_, ?_⟩ <;>
      simp [OrderService.createOrder, hev, hfind, htt, hnm, hfull]
  · intro db user data cid va now eventId event nm hev hfind htt hnm hfull
    simp [OrderService.createOrder, hev, hfind, htt, hnm, hfull]
  · intro db user data cid va now eventId event hev hfind htt hp
    simp [OrderService.createOrder, hev, hfind, htt, hp]

/-- Witness for C5 (amended): a flat price of 5000 and quantity 3 yields
one new pending order with totalPrice 15000. -/
theorem claim_C5_witness :
    ({ event := some "e1", ticketType := none, numberOfTicket := some 3 } :
        CreateOrderInput).event = some "e1" ∧
    wDb.findEvent "e1" = some wEvent ∧
    wEvent.price = some 5000 ∧
    (5000 : ℚ) ≠ 0 ∧
    ∃ o txn,
      (OrderService.createOrder wDb wUser
          { event := some "e1", ticketType := none, numberOfTicket := some 3 }
          "cid" wVa 4).2 = .ok (o, txn) ∧
      o.totalPrice = 5000 *
        (({ event := some "e1", ticketType := none, numberOfTicket := some 3 } :
            CreateOrderInput).numberOfTicket.getD 1 : ℚ) ∧
      o.status = .pending ∧
      (OrderService.createOrder wDb wUser
          { event := some "e1", ticketType := none, numberOfTicket := some 3 }
          "cid" wVa 4).1.orders = wDb.orders ++ [o] :=
  ⟨rfl, rfl, rfl, by norm_num,
    claim_C5_create_order_pricing.1 wDb wUser
      { event := some "e1", ticketType := none, numberOfTicket := some 3 }
      "cid" wVa 4 "e1" wEvent 5000 rfl rfl rfl rfl (by norm_num)⟩

/-- C7. The check-in state machine of TicketService.verifyTicket: a code
matching no ticket fails NotFound; a code whose lookup finds an unused
ticket succeeds, flips exactly that ticket to used, and returns the
holder and event summary; a code whose lookup finds an already-used
ticket fails with the resourceUsed conflict; and verification never
reverses the used state — every used ticket survives any verification
call unchanged. -/
theorem claim_C7_verify_state_machine :
    (∀ (db : DB) (code : String),
      db.tickets.find? (ticketMatches code) = none →
      TicketService.verifyTicket db code
        = (db, .error (.resourceNotFound "Invalid Ticket: Ticket not found"))) ∧
    (∀ (db : DB) (code : String) (t : Ticket) (ev : Event) (u : User),
      db.tickets.find? (ticketMatches code) = some t →
      t.isUsed = false →
      db.findEvent t.event = some ev →
      db.findUser t.user = some u →
      TicketService.verifyTicket db code
        = (db.updateTickets t.id (fun x => { x with isUsed := true }),
            .ok { ticketId := t.id, eventName := ev.title,
                  holderName := u.firstName ++ " " ++ u.lastName,
                  holderEmail := u.email })) ∧
    (∀ (db : DB) (code : String) (t : Ticket),
      db.tickets.find? (ticketMatches code) = some t →
      t.isUsed = true →
      TicketService.verifyTicket db code
        = (db, .error (.resourceUsed "Ticket already used"))) ∧
    (∀ (db : DB) (code : String) (t : Ticket),
      t ∈ db.tickets → t.isUsed = true →
      t ∈ (TicketService.verifyTicket db code).1.tickets) := by
  refine ⟨?_, ?_, ?_, ?_⟩
  · intro db code hfind
    simp [TicketService.verifyTicket, hfind]
  · intro db code t ev u hfind hunused hev hu
    simp [TicketService.verifyTicket, hfind, hunused, hev, hu]
  · intro db code t hfind hused
    simp [TicketService.verifyTicket, hfind, hused]
  · intro db code t htmem htused
    have hfix : ∀ tk : OId, (if t.id == tk then { t with isUsed := true } else t) = t := by
      intro tk
      cases t with
      | mk id user event order ticketType price seatNumber qrCode isUsed purchaseDate =>
        cases htused
        split <;> rfl
    cases hfind : db.tickets.find? (ticketMatches code) with
    | none => simpa [TicketService.verifyTicket, hfind] using htmem
    | some tk =>
      by_cases hu : tk.isUsed
      · simpa [TicketService.verifyTicket, hfind, hu] using htmem
      · cases hev : db.findEvent tk.event with
        | none =>
          simpa [TicketService.verifyTicket, hfind, hu, hev] using htmem
        | some ev =>
          have hmem' : t ∈ (db.updateTickets tk.id
              (fun x => { x with isUsed := true })).tickets := by
            simp only [DB.updateTickets, List.mem_map]
            exact ⟨t, htmem, hfix tk.id⟩
          cases hufind : (db.updateTickets tk.id
              (fun x => { x with isUsed := true })).findUser tk.user with
          | none =>
            simpa [TicketService.verifyTicket, hfind, hu, hev, hufind] using hmem'
          | some u =>
            simpa [TicketService.verifyTicket, hfind, hu, hev, hufind] using hmem'

/-- Witness for C7: verifying the concrete unused ticket by its payload
succeeds and flips it to used; the flipped ticket then fails the
conflict branch. -/
theorem claim_C7_witness :
    wDbT.tickets.find? (ticketMatches "o1-1") = some wTicket ∧
    wTicket.isUsed = false ∧
    wDbT.findEvent wTicket.event = some wEvent ∧
    wDbT.findUser wTicket.user = some wUser ∧
    TicketService.verifyTicket wDbT "o1-1"
      = (wDbT.updateTickets wTicket.id (fun x => { x with isUsed := true }),
          .ok { ticketId := wTicket.id, eventName := wEvent.title,
                holderName := wUser.firstName ++ " " ++ wUser.lastName,
                holderEmail := wUser.email }) :=
  ⟨by decide, rfl, rfl, rfl,
    (claim_C7_verify_state_machine.2.1) wDbT "o1-1" wTicket wEvent wUser
      (by decide) rfl rfl rfl⟩

/-- C10. The verification lookup treats the supplied code as an
unanchored regex over the stored `qrCode` field — which holds the
rendered data URL, not the raw payload — or as an exact id. Hence an
input that is no ticket's exact payload and no ticket's id (the empty
pattern, which matches every string) still makes verification find the
first ticket and mark it used. -/
theorem claim_C10_lookup_overmatch (db : DB) (t0 : Ticket)
    (rest : List Ticket) (ev : Event) (u : User)
    (htk : db.tickets = t0 :: rest)
    (hunused : t0.isUsed = false)
    (hev : db.findEvent t0.event = some ev)
    (hu : db.findUser t0.user = some u)
    (hid : ∀ t ∈ db.tickets, t.id ≠ "")
    (hpay : ∀ t ∈ db.tickets, ∀ p, t.qrCode = qrToDataURL p → p ≠ "") :
    db.tickets.find? (ticketMatches "") = some t0 ∧
    TicketService.verifyTicket db ""
      = (db.updateTickets t0.id (fun x => { x with isUsed := true }),
          .ok { ticketId := t0.id, eventName := ev.title,
                holderName := u.firstName ++ " " ++ u.lastName,
                holderEmail := u.email }) := by
  have hmatch : ticketMatches "" t0 = true := by
    simp [ticketMatches, strIncludes_empty]
  have hfind : db.tickets.find? (ticketMatches "") = some t0 := by
    rw [htk]
    exact List.find?_cons_of_pos _ hmatch
  exact ⟨hfind, by simp [TicketService.verifyTicket, hfind, hunused, hev, hu]⟩

/-- Witness for C10: the empty input is not the payload "o1-1" of the
concrete ticket and not its id, yet verification finds it and flips it
to used. -/
theorem claim_C10_witness :
    wDbT.tickets = wTicket :: [] ∧
    wTicket.isUsed = false ∧
    (∀ t ∈ wDbT.tickets, t.id ≠ "") ∧
    (∀ t ∈ wDbT.tickets, ∀ p, t.qrCode = qrToDataURL p → p ≠ "") ∧
    wDbT.tickets.find? (ticketMatches "") = some wTicket ∧
    TicketService.verifyTicket wDbT ""
      = (wDbT.updateTickets wTicket.id (fun x => { x with isUsed := true }),
          .ok { ticketId := wTicket.id, eventName := wEvent.title,
                holderName := wUser.firstName ++ " " ++ wUser.lastName,
                holderEmail := wUser.email }) := by
  have hpay : ∀ t ∈ wDbT.tickets, ∀ p, t.qrCode = qrToDataURL p → p ≠ "" := by
    intro t ht p hp
    have : t = wTicket := by
      simpa [wDbT] using ht
    subst this
    intro hemp
    subst hemp
    revert hp
    simp [wTicket, qrToDataURL]
  exact ⟨rfl, rfl, by decide, hpay,
    (claim_C10_lookup_overmatch wDbT wTicket [] wEvent wUser rfl rfl rfl rfl
      (by decide) hpay).1,
    (claim_C10_lookup_overmatch wDbT wTicket [] wEvent wUser rfl rfl rfl rfl
      (by decide) hpay).2⟩

/-! Injectivity of the decimal rendering used in the per-seat QR payload
template `order-(i+1)`: distinct sequence numbers render to distinct
strings, hence distinct payloads and distinct stored QR data URLs. -/

/-- Digit characters of distinct digits differ. -/

theorem digitChar_inj_lt : ∀ a, a < 10 → ∀ b, b < 10 →
    Nat.digitChar a = Nat.digitChar b → a = b := by decide

/-- Mapping digitChar over digit lists (all below 10) is injective. -/
theorem mapDigitChar_inj : ∀ (l1 l2 : List Nat),
    (∀ x ∈ l1, x < 10) → (∀ x ∈ l2, x < 10) →
    l1.map Nat.digitChar = l2.map Nat.digitChar → l1 = l2 := by
  intro l1
  induction l1 with
  | nil =>
    intro l2 _ _ h
    cases l2 with
    | nil => rfl
    | cons b t => simp at h
  | cons a t ih =>
    intro l2 h1 h2 h
    cases l2 with
    | nil => simp at h
    | cons b t2 =>
      simp only [List.map_cons, List.cons.injEq] at h
      have hab : a = b :=
        digitChar_inj_lt a (h1 a (by simp)) b (h2 b (by simp)) h.1
      have ht : t = t2 := ih t2 (fun x hx => h1 x (by simp [hx]))
        (fun x hx => h2 x (by simp [hx])) h.2
      rw [hab, ht]

/-- The fuelled core of Nat.repr agrees with Nat.digits, most
significant digit first. -/
theorem toDigitsCore_eq_digits : ∀ (fuel n : Nat) (ds : List Char),
    0 < n → n < fuel →
    Nat.toDigitsCore 10 fuel n ds
      = ((Nat.digits 10 n).map Nat.digitChar).reverse ++ ds := by
  intro fuel
  induction fuel with
  | zero => intro n ds h1 h2; omega
  | succ f ih =>
    intro n ds hpos hlt
    have hdig : Nat.digits 10 n = n % 10 :: Nat.digits 10 (n / 10) :=
      Nat.digits_def' (by norm_num) hpos
    by_cases hz : n / 10 = 0
    · simp only [Nat.toDigitsCore, hz, if_true]
      rw [hdig, hz]
      simp
    · simp only [Nat.toDigitsCore, hz, if_false]
      have hpos' : 0 < n / 10 := Nat.pos_of_ne_zero hz
      have hlt' : n / 10 < f := by
        have := Nat.div_lt_self hpos (by norm_num : (1:Nat) < 10)
        omega
      rw [ih (n / 10) (Nat.digitChar (n % 10) :: ds) hpos' hlt', hdig]
      simp

/-- Packing a char list into a string is injective. -/
theorem asString_inj (l1 l2 : List Char) (h : l1.asString = l2.asString) :
    l1 = l2 := congrArg String.data h

/-- Decimal rendering of naturals is injective. -/
theorem natRepr_inj : ∀ m n : Nat, Nat.repr m = Nat.repr n → m = n := by
  have hrepr : ∀ k : Nat, 0 < k →
      Nat.repr k = (((Nat.digits 10 k).map Nat.digitChar).reverse).asString := by
    intro k hk
    show (Nat.toDigits 10 k).asString = _
    rw [Nat.toDigits, toDigitsCore_eq_digits (k + 1) k [] hk (Nat.lt_succ_self k)]
    simp
  have hdiglt : ∀ k : Nat, ∀ x ∈ Nat.digits 10 k, x < 10 := by
    intro k x hx
    exact Nat.digits_lt_base (by norm_num) hx
  have key : ∀ m n : Nat, 0 < m → 0 < n → Nat.repr m = Nat.repr n → m = n := by
    intro m n hm hn h
    rw [hrepr m hm, hrepr n hn] at h
    have h2 := asString_inj _ _ h
    have h3 := List.reverse_injective h2
    have h4 := mapDigitChar_inj _ _ (hdiglt m) (hdiglt n) h3
    calc m = Nat.ofDigits 10 (Nat.digits 10 m) := (Nat.ofDigits_digits 10 m).symm
      _ = Nat.ofDigits 10 (Nat.digits 10 n) := by rw [h4]
      _ = n := Nat.ofDigits_digits 10 n
  intro m n h
  match m, n with
  | 0, 0 => rfl
  | 0, n + 1 =>
    exfalso
    have h0 : Nat.repr 0 = "0" := rfl
    rw [h0, hrepr (n + 1) (Nat.succ_pos n)] at h
    have h2 := asString_inj _ _ h
    have h3 : (Nat.digits 10 (n + 1)).map Nat.digitChar = ['0'] := by
      have := congrArg List.reverse h2
      simpa using this.symm
    have h4 := mapDigitChar_inj [0] _ (by simp) (hdiglt (n + 1))
      (by simpa using h3.symm)
    have : Nat.ofDigits 10 (Nat.digits 10 (n + 1)) = Nat.ofDigits 10 [0] := by
      rw [← h4]
    rw [Nat.ofDigits_digits] at this
    simp [Nat.ofDigits] at this
  | m + 1, 0 =>
    exfalso
    have h0 : Nat.repr 0 = "0" := rfl
    rw [h0, hrepr (m + 1) (Nat.succ_pos m)] at h
    have h2 := asString_inj _ _ h
    have h3 : (Nat.digits 10 (m + 1)).map Nat.digitChar = ['0'] := by
      have := congrArg List.reverse h2
      simpa using this
    have h4 := mapDigitChar_inj [0] _ (by simp) (hdiglt (m + 1))
      (by simpa using h3.symm)
    have : Nat.ofDigits 10 (Nat.digits 10 (m + 1)) = Nat.ofDigits 10 [0] := by
      rw [← h4]
    rw [Nat.ofDigits_digits] at this
    simp [Nat.ofDigits] at this
  | m + 1, n + 1 =>
    exact key (m + 1) (n + 1) (Nat.succ_pos m) (Nat.succ_pos n) h

/-- Appending a fixed string on the left is injective. -/
theorem strAppend_left_cancel (s t u : String) (h : s ++ t = s ++ u) : t = u := by
  have hd := congrArg String.data h
  simp only [String.data_append] at hd
  have := List.append_cancel_left hd
  cases t
  cases u
  exact congrArg String.mk this

/-- The QR payload template of the issuer loop is injective in the
sequence number. -/
theorem qrPayload_inj (order : OId) (i j : Nat)
    (h : order ++ "-" ++ toString (i + 1) = order ++ "-" ++ toString (j + 1)) :
    i = j := by
  have h1 := strAppend_left_cancel (order ++ "-") _ _ h
  have h2 := natRepr_inj (i + 1) (j + 1) h1
  omega

/-- The modelled data-URL renderer is injective. -/
theorem qrToDataURL_inj (p q : String) (h : qrToDataURL p = qrToDataURL q) :
    p = q :=
  strAppend_left_cancel "data:image/png;base64," p q h

/-- C6. For an order reconciled with count N, the issuer creates exactly
N ticket rows appended to the collection; the i-th row stores the QR
rendering of the payload `order-(i+1)` for i in 0..N-1 (that is,
payloads order-1 .. order-N), all rows are created unused, and the N
stored QR codes are pairwise distinct. -/
theorem claim_C6_ticket_qr_payloads (db : DB) (user event order : OId)
    (tt : Option TicketType) (price : Rat) (d : Nat) (N : Nat) (ev : Event)
    (u : User)
    (hev : db.findEvent event = some ev)
    (hu : db.findUser user = some u) :
    ∃ ts : List Ticket,
      (TicketService.createTicketAndSendMail db user event order tt price d N).1.tickets
        = db.tickets ++ ts ∧
      ts.length = N ∧
      ts.map Ticket.qrCode = (List.range N).map
        (fun i => qrToDataURL (order ++ "-" ++ toString (i + 1))) ∧
      ts.map Ticket.isUsed = List.replicate N false ∧
      (ts.map Ticket.qrCode).Nodup ∧
      (0 < N →
        (TicketService.createTicketAndSendMail db user event order tt price d N).2
          = .ok ts) := by
  refine ⟨(List.range N).map
    (mkTicketRow user event order tt price d db.ticketSeq), ?_, ?_, ?_, ?_, ?_, ?_⟩
  · by_cases hN : N = 0 <;>
      simp [TicketService.createTicketAndSendMail, hev, hu, hN]
  · simp
  · simp [List.map_map]
    intro a _
    rfl
  · simp [List.map_map]
    have : (Ticket.isUsed ∘ mkTicketRow user event order tt price d db.ticketSeq)
        = fun _ => false := by
      funext i
      rfl
    rw [this]
    simp [List.map_const']
  · simp only [List.map_map]
    refine List.Nodup.map_on ?_ (List.nodup_range N)
    intro i hi j hj hqr
    have : qrToDataURL (order ++ "-" ++ toString (i + 1))
        = qrToDataURL (order ++ "-" ++ toString (j + 1)) := hqr
    exact qrPayload_inj order i j (qrToDataURL_inj _ _ this)
  · intro hN
    have hN' : ¬ N = 0 := by omega
    simp [TicketService.createTicketAndSendMail, hev, hu, hN']

/-- Witness for C6: issuing two tickets for the concrete order o1 yields
exactly two rows with distinct rendered payloads o1-1 and o1-2, both
unused. -/
theorem claim_C6_witness :
    wDb.findEvent "e1" = some wEvent ∧
    wDb.findUser "u1" = some wUser ∧
    ∃ ts : List Ticket,
      (TicketService.createTicketAndSendMail wDb "u1" "e1" "o1" none 5000 9 2).1.tickets
        = wDb.tickets ++ ts ∧
      ts.length = 2 ∧
      ts.map Ticket.qrCode = (List.range 2).map
        (fun i => qrToDataURL ("o1" ++ "-" ++ toString (i + 1))) ∧
      ts.map Ticket.isUsed = List.replicate 2 false ∧
      (ts.map Ticket.qrCode).Nodup ∧
      (0 < 2 →
        (TicketService.createTicketAndSendMail wDb "u1" "e1" "o1" none 5000 9 2).2
          = .ok ts) :=
  ⟨rfl, rfl,
    claim_C6_ticket_qr_payloads wDb "u1" "e1" "o1" none 5000 9 2 wEvent wUser
      rfl rfl⟩

/-- Evaluation of the success path of handleSuccessfulPayment under the
success-path preconditions: the handler reports success, the matched
order is marked completed with the provider reference, exactly
numberOfTicket rows are appended, the matched transaction is transitioned
with the raw payload attached under metaData (its logs untouched), and
the event owner's balances are incremented by the fee-reduced amount. -/
theorem handleSuccess_run (cfg : Config) (w : WebhookData) (now : Nat)
    (db : DB) (r : String) (order : Order) (ev : Event) (buyer : User)
    (hr : jsOrStr w.txRef w.reference = some r)
    (hfind : db.findOrder r = some order)
    (hst : order.status = OrderStatus.pending)
    (hamt : ¬ (|w.amount - order.totalPrice| > 1 / 100))
    (hev : db.findEvent order.event = some ev)
    (hbuyer : db.findUser order.user = some buyer)
    (hcnt : ¬ order.numberOfTicket = 0) :
    (WebhookController.handleSuccessfulPayment cfg w now db).2 = .ok () ∧
    (WebhookController.handleSuccessfulPayment cfg w now db).1.orders
      = db.orders.map (fun o => if o.id == order.id then
          { o with status := .completed, paymentReference := some w.id,
                   paidAt := some now, paymentMethod := some "flutterwave" }
        else o) ∧
    (WebhookController.handleSuccessfulPayment cfg w now db).1.tickets
      = db.tickets ++ (List.range order.numberOfTicket).map
          (mkTicketRow order.user order.event order.id order.ticketType
            (match order.ticketType with
              | some tt => tt.price
              | none => ev.price.getD 0) now db.ticketSeq) ∧
    (WebhookController.handleSuccessfulPayment cfg w now db).1.users
      = db.users.map (fun u => if u.id == ev.user then
          { u with
            availableBalance := u.availableBalance
              + (w.amount - w.amount * (cfg.PLATFORM_FEE_PERCENTAGE / 100)),
            totalEarnings := u.totalEarnings
              + (w.amount - w.amount * (cfg.PLATFORM_FEE_PERCENTAGE / 100)) }
        else u) ∧
    (WebhookController.handleSuccessfulPayment cfg w now db).1.transactions
      = db.transactions.map (fun t => if t.reference == r then
          { t with status := .successful, reference := w.id,
                   completedAt := some now, metaData := some w }
        else t) := by
  have hamt' : ¬ ((100 : ℚ)⁻¹ < |w.amount - order.totalPrice|) := by
    simpa [gt_iff_lt, one_div] using hamt
  refine ⟨?_, ?_, ?_, ?_, ?_⟩ <;>
    simp [WebhookController.handleSuccessfulPayment, hr, hfind, hst, hamt',
      hev, hbuyer, hcnt, TicketService.createTicketAndSendMail,
      WebhookController.updateEventCreatorBalance,
      DB.findUser_updateUsers_inc]

/-- Replay short-circuit: a successful-payment notification whose order
is already completed returns the state exactly unchanged. -/
theorem handleSuccess_replay (cfg : Config) (w : WebhookData) (now : Nat)
    (db : DB) (r : String) (order : Order)
    (hr : jsOrStr w.txRef w.reference = some r)
    (hfind : db.findOrder r = some order)
    (hcomp : order.status = OrderStatus.completed) :
    WebhookController.handleSuccessfulPayment cfg w now db = (db, .ok ()) := by
  simp [WebhookController.handleSuccessfulPayment, hr, hfind, hcomp]

/-- C1. Delivering the same successful-payment webhook twice yields
exactly one completed order, one batch of numberOfTicket tickets, and at
most one balance credit: after the first delivery the order is completed
and the tickets exist, and the second delivery — at any later time —
short-circuits on the completed status and returns the state exactly
unchanged (so no further order, ticket, transaction, or balance
mutation). -/
theorem claim_C1_webhook_idempotent (cfg : Config) (w : WebhookData)
    (now now' : Nat) (db : DB) (r : String) (order : Order) (ev : Event)
    (buyer : User)
    (hr : jsOrStr w.txRef w.reference = some r)
    (hfind : db.findOrder r = some order)
    (hst : order.status = OrderStatus.pending)
    (hamt : ¬ (|w.amount - order.totalPrice| > 1 / 100))
    (hev : db.findEvent order.event = some ev)
    (hbuyer : db.findUser order.user = some buyer)
    (hcnt : ¬ order.numberOfTicket = 0) :
    (WebhookController.handleSuccessfulPayment cfg w now db).2 = .ok () ∧
    (∃ ts, (WebhookController.handleSuccessfulPayment cfg w now db).1.tickets
        = db.tickets ++ ts ∧ ts.length = order.numberOfTicket) ∧
    (WebhookController.handleSuccessfulPayment cfg w now db).1.findOrder r
      = some ({ order with
                status := OrderStatus.completed
                paymentReference := some w.id
                paidAt := some now
                paymentMethod := some "flutterwave" }) ∧
    WebhookController.handleSuccessfulPayment cfg w now'
        (WebhookController.handleSuccessfulPayment cfg w now db).1
      = ((WebhookController.handleSuccessfulPayment cfg w now db).1, .ok ()) := by
  obtain ⟨h2, hord, htks, husers, htxn⟩ :=
    handleSuccess_run cfg w now db r order ev buyer hr hfind hst hamt hev
      hbuyer hcnt
  have hfound : (WebhookController.handleSuccessfulPayment cfg w now db).1.findOrder r
      = some ({ order with
                status := OrderStatus.completed
                paymentReference := some w.id
                paidAt := some now
                paymentMethod := some "flutterwave" }) := by
    show (WebhookController.handleSuccessfulPayment cfg w now db).1.orders.find?
        (fun o => o.id == r) = _
    rw [hord, find?_map_idPreserving _ _ ?hg]
    case hg =>
      intro o
      by_cases h : o.id == order.id <;> simp [h]
    have hfind' : db.orders.find? (fun o => o.id == r) = some order := hfind
    rw [hfind']
    simp
  refine ⟨h2, ⟨_, htks, by simp⟩, hfound, ?_⟩
  exact handleSuccess_replay cfg w now'
    (WebhookController.handleSuccessfulPayment cfg w now db).1 r _ hr hfound rfl

/-- Witness for C1: delivering the concrete successful webhook for order
o1 completes it with two tickets, and a second delivery at a later time
is exactly a no-op. -/
theorem claim_C1_witness :
    jsOrStr wW.txRef wW.reference = some "o1" ∧
    wDb.findOrder "o1" = some wOrder ∧
    wOrder.status = OrderStatus.pending ∧
    ¬ (|wW.amount - wOrder.totalPrice| > 1 / 100) ∧
    wDb.findEvent wOrder.event = some wEvent ∧
    wDb.findUser wOrder.user = some wUser ∧
    ¬ wOrder.numberOfTicket = 0 ∧
    ((WebhookController.handleSuccessfulPayment wCfg wW 9 wDb).2 = .ok () ∧
      (∃ ts, (WebhookController.handleSuccessfulPayment wCfg wW 9 wDb).1.tickets
          = wDb.tickets ++ ts ∧ ts.length = wOrder.numberOfTicket) ∧
      (WebhookController.handleSuccessfulPayment wCfg wW 9 wDb).1.findOrder "o1"
        = some ({ wOrder with
                  status := OrderStatus.completed
                  paymentReference := some wW.id
                  paidAt := some 9
                  paymentMethod := some "flutterwave" }) ∧
      WebhookController.handleSuccessfulPayment wCfg wW 11
          (WebhookController.handleSuccessfulPayment wCfg wW 9 wDb).1
        = ((WebhookController.handleSuccessfulPayment wCfg wW 9 wDb).1, .ok ())) :=
  ⟨rfl, rfl, rfl, by norm_num [wW, wOrder], rfl, rfl, by decide,
    claim_C1_webhook_idempotent wCfg wW 9 11 wDb "o1" wOrder wEvent wUser
      rfl rfl rfl (by norm_num [wW, wOrder]) rfl rfl (by decide)⟩

/-- C4. On a successful reconciliation with matching amount, the event
owner's user record is credited: availableBalance and totalEarnings each
increase by amount times (1 minus the configured platform fee fraction),
applied as an increment of the stored values (`$inc`). -/
theorem claim_C4_creator_balance_credit (cfg : Config) (w : WebhookData)
    (now : Nat) (db : DB) (r : String) (order : Order) (ev : Event)
    (buyer owner : User)
    (hr : jsOrStr w.txRef w.reference = some r)
    (hfind : db.findOrder r = some order)
    (hst : order.status = OrderStatus.pending)
    (hamt : ¬ (|w.amount - order.totalPrice| > 1 / 100))
    (hev : db.findEvent order.event = some ev)
    (hbuyer : db.findUser order.user = some buyer)
    (hcnt : ¬ order.numberOfTicket = 0)
    (howner : db.findUser ev.user = some owner) :
    (WebhookController.handleSuccessfulPayment cfg w now db).1.findUser ev.user
      = some ({ owner with
          availableBalance := owner.availableBalance
            + w.amount * (1 - cfg.PLATFORM_FEE_PERCENTAGE / 100)
          totalEarnings := owner.totalEarnings
            + w.amount * (1 - cfg.PLATFORM_FEE_PERCENTAGE / 100) }) := by
  obtain ⟨h2, hord, htks, husers, htxn⟩ :=
    handleSuccess_run cfg w now db r order ev buyer hr hfind hst hamt hev
      hbuyer hcnt
  have harith : w.amount - w.amount * (cfg.PLATFORM_FEE_PERCENTAGE / 100)
      = w.amount * (1 - cfg.PLATFORM_FEE_PERCENTAGE / 100) := by ring
  show (WebhookController.handleSuccessfulPayment cfg w now db).1.users.find?
      (fun u => u.id == ev.user) = _
  rw [husers, find?_map_idPreserving _ _ ?hg]
  case hg =>
    intro u
    by_cases h : u.id == ev.user <;> simp [h]
  have howner' : db.users.find? (fun u => u.id == ev.user) = some owner := howner
  have hid : (owner.id == ev.user) = true := by
    have := List.find?_some howner'
    simpa using this
  have hid' : owner.id = ev.user := by simpa using hid
  rw [howner']
  simp [hid', harith]

/-- Witness for C4: reconciling the concrete 10000 order credits the
owner (previous balance 5, earnings 7) with 10000 times (1 minus 0.02),
that is 9800. -/
theorem claim_C4_witness :
    wDb.findUser wEvent.user = some wOwner ∧
    (WebhookController.handleSuccessfulPayment wCfg wW 9 wDb).1.findUser
        wEvent.user
      = some ({ wOwner with
          availableBalance := wOwner.availableBalance
            + wW.amount * (1 - wCfg.PLATFORM_FEE_PERCENTAGE / 100)
          totalEarnings := wOwner.totalEarnings
            + wW.amount * (1 - wCfg.PLATFORM_FEE_PERCENTAGE / 100) }) :=
  ⟨rfl,
    claim_C4_creator_balance_credit wCfg wW 9 wDb "o1" wOrder wEvent wUser
      wOwner rfl rfl rfl (by norm_num [wW, wOrder]) rfl rfl (by decide) rfl⟩

/-- C9 (refuting evaluation). Processing the successful-payment webhook
for the concrete pending order transitions its transaction to successful
and attaches the raw payload under the metaData key, but appends nothing
to the transaction's attempt-log array: the logs of every stored
transaction are exactly as before (here: still empty), where the claim
requires one appended entry per observed webhook. -/
theorem claim_C9_logs_not_appended :
    wDb.transactions.map Transaction.logs = [[]] ∧
    (WebhookController.handleSuccessfulPayment wCfg wW 9 wDb).1.transactions.map
        Transaction.logs = [[]] ∧
    ∃ t, (WebhookController.handleSuccessfulPayment wCfg wW 9 wDb).1.transactions
        = [t] ∧
      t.status = TransactionStatus.successful ∧
      t.metaData = some wW ∧
      t.logs = [] := by
  obtain ⟨h2, hord, htks, husers, htxn⟩ :=
    handleSuccess_run wCfg wW 9 wDb "o1" wOrder wEvent wUser rfl rfl rfl
      (by norm_num [wW, wOrder]) rfl rfl (by decide)
  refine ⟨rfl, ?_, ?_⟩
  · rw [htxn]
    rfl
  · rw [htxn]
    exact ⟨_, rfl, rfl, rfl, rfl⟩

/-- Counterexample to C8 as stated: the provider status "failed" drives
the failure handler when delivered by webhook — the concrete pending
order becomes failed — but the manual verification endpoint fed the same
polled status performs no state transition at all, so webhook and
polling reconciliation diverge. -/
theorem claim_C8_counterexample :
    wDb.findOrder "o1" = some wOrder ∧
    wOrder.status = OrderStatus.pending ∧
    (WebhookController.orderTransactionCompleted wCfg wHmac cReq8 9 wDb).1.findOrder "o1"
      = some ({ wOrder with
                status := OrderStatus.failed
                failureReason := some "card declined"
                failedAt := some 9 }) ∧
    WebhookController.verifyPaymentStatus wCfg true
        { status := "failed", data := cW8 } 9 wDb
      = (wDb, .verificationCompleted "failed") := by
  refine ⟨rfl, rfl, ?_, ?_⟩ <;> decide

/-- C8 (amended). The manual verification endpoint drives the webhook
success handler only when the poll reply's top-level status is the
literal "success"; every other polled status — including "failed" and
"cancelled" — is acknowledged without invoking any handler, leaving the
state untouched. Only the pending-order sweep routes a polled
"successful" through the success handler and "failed"/"cancelled"
through the failure handler used by the webhook path. -/
theorem claim_C8_manual_verification_behavior :
    (∀ (cfg : Config) (vr : VerificationResult) (now : Nat) (db : DB),
      vr.status = "success" →
      WebhookController.verifyPaymentStatus cfg true vr now db
        = (match WebhookController.handleSuccessfulPayment cfg vr.data now db with
            | (db1, .ok _) => (db1, .verifiedAndProcessed)
            | (db1, .error e) => (db1, .errorForwarded e))) ∧
    (∀ (cfg : Config) (vr : VerificationResult) (now : Nat) (db : DB),
      vr.status ≠ "success" →
      WebhookController.verifyPaymentStatus cfg true vr now db
        = (db, .verificationCompleted vr.status)) ∧
    (∀ (cfg : Config) (vr : VerificationResult) (now : Nat) (db : DB),
      vr.status = "successful" →
      WebhookController.checkPendingOrdersStep cfg vr now db
        = (WebhookController.handleSuccessfulPayment cfg vr.data now db).1) ∧
    (∀ (cfg : Config) (vr : VerificationResult) (now : Nat) (db : DB),
      vr.status = "failed" ∨ vr.status = "cancelled" →
      WebhookController.checkPendingOrdersStep cfg vr now db
        = (WebhookController.handleFailedPayment vr.data now db).1) := by
  refine ⟨?_, ?_, ?_, ?_⟩
  · intro cfg vr now db hs
    simp [WebhookController.verifyPaymentStatus, hs]
  · intro cfg vr now db hs
    simp [WebhookController.verifyPaymentStatus, hs]
  · intro cfg vr now db hs
    simp [WebhookController.checkPendingOrdersStep, hs]
  · intro cfg vr now db hs
    rcases hs with hs | hs <;>
      simp [WebhookController.checkPendingOrdersStep, hs]

/-- Witness for C8 (amended): a polled "failed" result leaves the
concrete state untouched at the manual endpoint, while the sweep routes
it through the failure handler. -/
theorem claim_C8_witness :
    ({ status := "failed", data := cW8 } : VerificationResult).status ≠ "success" ∧
    WebhookController.verifyPaymentStatus wCfg true
        { status := "failed", data := cW8 } 9 wDb
      = (wDb, .verificationCompleted "failed") ∧
    WebhookController.checkPendingOrdersStep wCfg
        { status := "failed", data := cW8 } 9 wDb
      = (WebhookController.handleFailedPayment cW8 9 wDb).1 :=
  ⟨by decide,
    claim_C8_manual_verification_behavior.2.1 wCfg
      { status := "failed", data := cW8 } 9 wDb (by decide),
    claim_C8_manual_verification_behavior.2.2.2 wCfg
      { status := "failed", data := cW8 } 9 wDb (Or.inl rfl)⟩
